import Mathlib

/-!
# Channel client (`pkg/fabric-txn/chclient/chclient.go`)

A shallow embedding of the channel client of the fabric SDK: the default
proposal-response filter, the query dispatcher `sendTransactionProposal`, the
commit waiter `sendTransaction`, and the two public operations `QueryWithOpts`
and `ExecuteTxWithOpts`.

Collaborators (discovery, selection, the proposal and transaction primitives of
package `internal`, the event hub, the configuration) are not part of the
sources; their outcomes are fields of a `World` record, and every call made to
them is recorded, in program order, as an `Event` of a trace.
-/

namespace Chclient

/-! ## Data model -/

/-- Byte slices (`[]byte`); the nil slice and the empty slice are both `[]`. -/
abbrev Bytes := List UInt8

/-- Go `error` values.  Constructors follow the calls that build them in
`chclient.go`; errors returned by collaborators are arbitrary values of this type. -/
inductive Error where
  /-- `errors.New(text)` -/
  | new (text : String)
  /-- `errors.Errorf("proposal response was not successful, error code %d, msg %s", status, message)` -/
  | proposalNotSuccessful (status : Int) (message : String)
  /-- `errors.Errorf("ProposalResponsePayloads do not match")` -/
  | payloadsDoNotMatch
  /-- `errors.WithMessage(cause, text)` -/
  | withMessage (cause : Error) (text : String)
  /-- `errors.Wrap(cause, text)` -/
  | wrap (cause : Error) (text : String)
  /-- `errors.New("query request timed out" + timeout.String())` -/
  | queryTimedOut (timeout : Int)
  deriving DecidableEq, Repr

/-- The response carried by one `*apitxn.TransactionProposalResponse`, as read
through `r.ProposalResponse.GetResponse()`: status code, message and payload.
Pointers in a response sequence are taken to be non-nil. -/
structure TransactionProposalResponse where
  Status : Int
  Message : String
  Payload : Bytes
  deriving DecidableEq, Repr

/-- The transaction identifier `apitxn.TransactionID`; its zero value is
`TransactionID{}`. -/
structure TransactionID where
  ID : String
  Nonce : Bytes
  deriving DecidableEq, Repr

/-- The zero value `apitxn.TransactionID{}`. -/
def TransactionID.zero : TransactionID := { ID := "", Nonce := [] }

deriving instance DecidableEq for Except

/-! ## The default response filter -/

/-- Go `bytes.Compare`: lexicographic three-way comparison of byte slices. -/
def bytesCompare : Bytes → Bytes → Int
  | [], [] => 0
  | [], _ :: _ => -1
  | _ :: _, [] => 1
  | a :: as, b :: bs =>
    if a < b then -1 else if b < a then 1 else bytesCompare as bs

/-- The body of the `for n, r := range txProposalResponse` loop of
`ProcessTxProposalResponse`, started at index `n` with local `a1`; `none` when
the loop runs to its end, `some e` when it returns the error `e`. -/
def rangeLoop (a1 : Bytes) (n : Nat) : List TransactionProposalResponse → Option Error
  | [] => none
  | r :: rest =>
    if r.Status ≠ 200 then
      some (Error.proposalNotSuccessful r.Status r.Message)
    else if n = 0 then
      rangeLoop r.Payload (n + 1) rest
    else if bytesCompare a1 r.Payload ≠ 0 then
      some Error.payloadsDoNotMatch
    else
      rangeLoop a1 (n + 1) rest

/-- `txProposalResponseFilter.ProcessTxProposalResponse`: `Except.ok rs` stands
for `(rs, nil)`, `Except.error e` for `(nil, e)`. -/
def ProcessTxProposalResponse (txProposalResponse : List TransactionProposalResponse) :
    Except Error (List TransactionProposalResponse) :=
  match rangeLoop [] 0 txProposalResponse with
  | some e => Except.error e
  | none => Except.ok txProposalResponse

/-! ## Collaborators and traces -/

/-- Opaque handle of a network peer (`fab.Peer`). -/
abbrev Peer := String

/-- Opaque handle of a proposal processor (`apitxn.ProposalProcessor`). -/
abbrev ProposalProcessor := String

/-- Modelled from the spec: `peer.PeersToTxnProcessors` is declared outside the
sources; a processor set is an ordered sequence of endorser handles resolved
from the peers, so every peer is taken as its own processor, in order. -/
def PeersToTxnProcessors (peers : List Peer) : List ProposalProcessor := peers

/-- The commit verdict `pb.TxValidationCode`. -/
abbrev TxValidationCode := Int

/-- Modelled from the spec: the enumeration `pb.TxValidationCode` is declared
outside the sources; `VALID` is taken to be its zero value. -/
def TxValidationCode_VALID : TxValidationCode := 0

/-- Durations (`time.Duration`), in nanoseconds. -/
abbrev Duration := Int

/-- The operation kinds of `apiconfig.TimeoutType` used by the client. -/
inductive TimeoutType where
  | Query
  | ExecuteTx
  deriving DecidableEq, Repr

/-- A notification channel: one supplied by the caller in the options, or the
one the call creates with `make(chan ...)`. -/
inductive Chan where
  | supplied (id : Nat)
  | made
  deriving DecidableEq, Repr

/-- The envelope `apitxn.QueryResponse`. -/
structure QueryResponse where
  Response : Bytes
  Error : Option Error
  deriving DecidableEq, Repr

/-- The envelope `apitxn.ExecuteTxResponse`. -/
structure ExecuteTxResponse where
  Response : TransactionID
  TxValidationCode : TxValidationCode
  Error : Option Error
  deriving DecidableEq, Repr

/-- The request `apitxn.QueryRequest`. -/
structure QueryRequest where
  ChaincodeID : String
  Fcn : String
  Args : List Bytes
  deriving DecidableEq, Repr

/-- The request `apitxn.ExecuteTxRequest`. -/
structure ExecuteTxRequest where
  ChaincodeID : String
  Fcn : String
  Args : List Bytes
  TransientMap : List (String × Bytes)
  TxnId : TransactionID
  SuperMiner : String
  NormalMiner : String
  PoolMiner : String
  Peers : List String
  deriving DecidableEq, Repr

/-- A response filter (`apitxn.TxProposalResponseFilter`): any function with the
signature of `ProcessTxProposalResponse`. -/
abbrev TxProposalResponseFilter :=
  List TransactionProposalResponse → Except Error (List TransactionProposalResponse)

/-- The options `apitxn.QueryOpts`; a nil notifier or filter is `none`. -/
structure QueryOpts where
  Notifier : Option Nat
  ProposalProcessors : List ProposalProcessor
  TxFilter : Option TxProposalResponseFilter
  Timeout : Duration

/-- The options `apitxn.ExecuteTxOpts`; a nil notifier or filter is `none`. -/
structure ExecuteTxOpts where
  Notifier : Option Nat
  ProposalProcessors : List ProposalProcessor
  TxFilter : Option TxProposalResponseFilter
  Timeout : Duration

/-- The arguments of one call of `internal.CreateAndSendTransactionProposal`
(the channel apart). -/
structure ProposalCall where
  chainCodeID : String
  fcn : String
  args : List Bytes
  targets : List ProposalProcessor
  transientData : List (String × Bytes)
  txnID : TransactionID
  superMiner : String
  normalMiner : String
  poolMiner : String
  peers : List String
  deriving DecidableEq, Repr

/-- The three results of `internal.CreateAndSendTransactionProposal`. -/
structure ProposalResult where
  responses : List TransactionProposalResponse
  txID : TransactionID
  err : Option Error
  deriving DecidableEq, Repr

/-- One behaviour of the collaborators of a channel client during one call.
`selection = none` is a client built with a nil selection service;
`commitEvent = some c` means the commit event with code `c` is received before
the timer of `sendTransaction` fires, `none` that the timer fires first;
`callerTimerFirst` tells whether, in the `select` of a synchronous call, the
timer fires before an envelope is read from the notifier. -/
structure World where
  GetPeers : Except Error (List Peer)
  selection : Option (List Peer → String → Except Error (List Peer))
  NewTxnID : Except Error TransactionID
  CreateAndSendTransactionProposal : ProposalCall → ProposalResult
  TimeoutOrDefault : TimeoutType → Duration
  IsConnected : Bool
  Connect : Option Error
  CreateAndSendTransaction : List TransactionProposalResponse → Option Error
  commitEvent : Option TxValidationCode
  callerTimerFirst : Bool

/-- What a run does to the outside, in program order: calls of collaborators,
sends on a notifier (`notifier <- envelope`), and `select` statements. -/
inductive Event where
  | GetPeers
  | GetEndorsersForChaincode (peers : List Peer) (chaincodeID : String)
  | NewTxnID
  | CreateAndSendTransactionProposal (call : ProposalCall)
  | TimeoutOrDefault (kind : TimeoutType)
  | IsConnected
  | Connect
  | RegisterTxEvent (txID : TransactionID)
  | CreateAndSendTransaction (responses : List TransactionProposalResponse)
  | sendQuery (notifier : Chan) (envelope : QueryResponse)
  | sendExecute (notifier : Chan) (envelope : ExecuteTxResponse)
  | selectCommit (timeout : Duration)
  | selectNotifier (notifier : Chan) (timeout : Duration)
  deriving DecidableEq, Repr

/-- The envelopes a trace sends on a query notifier, in order. -/
def querySends : List Event → List QueryResponse
  | [] => []
  | Event.sendQuery _ r :: rest => r :: querySends rest
  | _ :: rest => querySends rest

/-- The envelopes a trace sends on an execute notifier, in order. -/
def executeSends : List Event → List ExecuteTxResponse
  | [] => []
  | Event.sendExecute _ r :: rest => r :: executeSends rest
  | _ :: rest => executeSends rest

/-- Whether an event is a `select` on a notifier and a timer. -/
def Event.isSelectNotifier : Event → Bool
  | Event.selectNotifier _ _ => true
  | _ => false

/-- A finished goroutine: its trace, and whether it ended in a run-time panic. -/
structure Run where
  trace : List Event
  panicked : Bool
  deriving DecidableEq, Repr

/-- The result of a public call.  `returned` holds the two results of the call
(`none` when a goroutine it waits for panicked, which ends the program);
`trace` is what the calling goroutine did, `spawned` the trace of the goroutine
started with `go` (`none` when the call returned before starting one), and
`panicked` whether that goroutine panicked. -/
structure Outcome (α : Type) where
  returned : Option (α × Option Error)
  trace : List Event
  spawned : Option (List Event)
  panicked : Bool

/-! ## The query dispatcher and the commit waiter -/

/-- The arguments with which `ExecuteTxWithOpts` calls the proposal primitive. -/
def executeCall (request : ExecuteTxRequest) (txProcessors : List ProposalProcessor) :
    ProposalCall :=
  { chainCodeID := request.ChaincodeID, fcn := request.Fcn, args := request.Args,
    targets := txProcessors, transientData := request.TransientMap,
    txnID := request.TxnId, superMiner := request.SuperMiner,
    normalMiner := request.NormalMiner, poolMiner := request.PoolMiner,
    peers := request.Peers }

/-- The arguments with which `sendTransactionProposal` calls the proposal primitive. -/
def queryCall (request : QueryRequest) (proposalProcessors : List ProposalProcessor)
    (txnId : TransactionID) : ProposalCall :=
  { chainCodeID := request.ChaincodeID, fcn := request.Fcn, args := request.Args,
    targets := proposalProcessors, transientData := [], txnID := txnId,
    superMiner := "", normalMiner := "", poolMiner := "", peers := [] }

/-- The goroutine `sendTransactionProposal`.  Reading index 0 of an empty
filtered sequence is a run-time panic: the run ends there, nothing sent. -/
def sendTransactionProposal (w : World) (request : QueryRequest)
    (proposalProcessors : List ProposalProcessor) (txFilter : Option TxProposalResponseFilter)
    (notifier : Chan) (txnId : TransactionID) : Run :=
  let call := queryCall request proposalProcessors txnId
  let res := w.CreateAndSendTransactionProposal call
  match res.err with
  | some err =>
    { trace := [Event.CreateAndSendTransactionProposal call,
                Event.sendQuery notifier { Response := [], Error := some err }],
      panicked := false }
  | none =>
    let txFilter : TxProposalResponseFilter :=
      match txFilter with
      | none => ProcessTxProposalResponse
      | some f => f
    match txFilter res.responses with
    | Except.error err =>
      { trace := [Event.CreateAndSendTransactionProposal call,
                  Event.sendQuery notifier
                    { Response := [], Error := some (Error.withMessage err "TxFilter failed") }],
        panicked := false }
    | Except.ok transactionProposalResponses =>
      match transactionProposalResponses with
      | [] => { trace := [Event.CreateAndSendTransactionProposal call], panicked := true }
      | r :: _ =>
        { trace := [Event.CreateAndSendTransactionProposal call,
                    Event.sendQuery notifier { Response := r.Payload, Error := none }],
          panicked := false }

/-- The goroutine `sendTransaction`; the result is its trace.  After a failed
`Connect` the error envelope is sent and control falls through to the
registration, as the `if err != nil` block has no `return`. -/
def sendTransaction (w : World) (txID : TransactionID)
    (txProposalResponses : List TransactionProposalResponse) (notifier : Chan)
    (timeout : Duration) : List Event :=
  let connecting : List Event :=
    if w.IsConnected = false then
      match w.Connect with
      | some err =>
        [Event.IsConnected, Event.Connect,
         Event.sendExecute notifier
           { Response := TransactionID.zero, TxValidationCode := 0, Error := some err }]
      | none => [Event.IsConnected, Event.Connect]
    else [Event.IsConnected]
  let submitting : List Event :=
    connecting ++ [Event.RegisterTxEvent txID, Event.CreateAndSendTransaction txProposalResponses]
  match w.CreateAndSendTransaction txProposalResponses with
  | some err =>
    submitting ++
      [Event.sendExecute notifier
        { Response := TransactionID.zero, TxValidationCode := 0,
          Error := some (Error.wrap err "CreateAndSendTransaction failed") }]
  | none =>
    match w.commitEvent with
    | some code =>
      if code = TxValidationCode_VALID then
        submitting ++
          [Event.selectCommit timeout,
           Event.sendExecute notifier { Response := txID, TxValidationCode := code, Error := none }]
      else
        submitting ++
          [Event.selectCommit timeout,
           Event.sendExecute notifier
             { Response := txID, TxValidationCode := code,
               Error := some (Error.new "ExecuteTx transaction response failed") }]
    | none =>
      submitting ++
        [Event.selectCommit timeout,
         Event.sendExecute notifier
           { Response := txID, TxValidationCode := 0,
             Error := some (Error.new "ExecuteTx didn't receive block event") }]

/-! ## The public operations -/

/-- The processor resolution of `QueryWithOpts` (lines 92-107): the processors
to use, or the error the call returns, with the collaborator calls made. -/
def queryProcessors (w : World) (request : QueryRequest) (opts : QueryOpts) :
    Except Error (List ProposalProcessor) × List Event :=
  if opts.ProposalProcessors.length = 0 then
    match w.GetPeers with
    | Except.error err => (Except.error (Error.withMessage err "GetPeers failed"), [Event.GetPeers])
    | Except.ok peers =>
      match w.selection with
      | none => (Except.ok (PeersToTxnProcessors peers), [Event.GetPeers])
      | some selection =>
        match selection peers request.ChaincodeID with
        | Except.error err =>
          (Except.error (Error.withMessage err "Failed to get endorsing peers"),
           [Event.GetPeers, Event.GetEndorsersForChaincode peers request.ChaincodeID])
        | Except.ok endorsers =>
          (Except.ok (PeersToTxnProcessors endorsers),
           [Event.GetPeers, Event.GetEndorsersForChaincode peers request.ChaincodeID])
  else (Except.ok opts.ProposalProcessors, [])

/-- The end of `QueryWithOpts` (lines 113-130), entered with the trace `t` of
the call so far: `go sendTransactionProposal`, the return of the asynchronous
mode, and the `select` of the synchronous mode. -/
def queryDispatch (w : World) (request : QueryRequest) (opts : QueryOpts) (t : List Event)
    (txProcessors : List ProposalProcessor) (txnId : TransactionID) : Outcome Bytes :=
  let notifier : Chan :=
    match opts.Notifier with
    | some c => Chan.supplied c
    | none => Chan.made
  let run := sendTransactionProposal w request txProcessors opts.TxFilter notifier txnId
  if opts.Notifier ≠ none then
    { returned := some ([], none), trace := t,
      spawned := some run.trace, panicked := run.panicked }
  else
    let timeout : Duration :=
      if opts.Timeout ≠ 0 then opts.Timeout else w.TimeoutOrDefault TimeoutType.Query
    let t2 := t ++ [Event.TimeoutOrDefault TimeoutType.Query,
                    Event.selectNotifier notifier timeout]
    if run.panicked then
      { returned := none, trace := t2, spawned := some run.trace, panicked := true }
    else
      match w.callerTimerFirst, querySends run.trace with
      | false, response :: _ =>
        { returned := some (response.Response, response.Error), trace := t2,
          spawned := some run.trace, panicked := false }
      | _, _ =>
        { returned := some ([], some (Error.queryTimedOut timeout)), trace := t2,
          spawned := some run.trace, panicked := false }

/-- `ChannelClient.QueryWithOpts`. -/
def QueryWithOpts (w : World) (request : QueryRequest) (opts : QueryOpts) : Outcome Bytes :=
  if request.ChaincodeID = "" ∨ request.Fcn = "" then
    { returned := some ([], some (Error.new "ChaincodeID and Fcn are required")),
      trace := [], spawned := none, panicked := false }
  else
    match queryProcessors w request opts with
    | (Except.error err, t) =>
      { returned := some ([], some err), trace := t, spawned := none, panicked := false }
    | (Except.ok txProcessors, t) =>
      match w.NewTxnID with
      | Except.error err =>
        { returned := some ([], some (Error.withMessage err "GetPeers cc.client.NewTxnID failed")),
          trace := t ++ [Event.NewTxnID], spawned := none, panicked := false }
      | Except.ok txnId =>
        queryDispatch w request opts (t ++ [Event.NewTxnID]) txProcessors txnId

/-- The processor resolution of `ExecuteTxWithOpts` (lines 175-191). -/
def executeProcessors (w : World) (request : ExecuteTxRequest) (opts : ExecuteTxOpts) :
    Except Error (List ProposalProcessor) × List Event :=
  if opts.ProposalProcessors.length = 0 then
    match w.GetPeers with
    | Except.error err => (Except.error (Error.withMessage err "GetPeers failed"), [Event.GetPeers])
    | Except.ok peers =>
      match w.selection with
      | none => (Except.ok (PeersToTxnProcessors peers), [Event.GetPeers])
      | some selection =>
        match selection peers request.ChaincodeID with
        | Except.error err =>
          (Except.error (Error.withMessage err "Failed to get endorsing peers for ExecuteTx"),
           [Event.GetPeers, Event.GetEndorsersForChaincode peers request.ChaincodeID])
        | Except.ok endorsers =>
          (Except.ok (PeersToTxnProcessors endorsers),
           [Event.GetPeers, Event.GetEndorsersForChaincode peers request.ChaincodeID])
  else (Except.ok opts.ProposalProcessors, [])

/-- The end of `ExecuteTxWithOpts` (lines 210-232), entered with the trace `t`
of the call so far: notifier and timeout, `go sendTransaction`, the return of
the asynchronous mode, and the `select` of the synchronous mode. -/
def executeDispatch (w : World) (opts : ExecuteTxOpts) (t : List Event) (txID : TransactionID)
    (txProposalResponses : List TransactionProposalResponse) : Outcome TransactionID :=
  let notifier : Chan :=
    match opts.Notifier with
    | some c => Chan.supplied c
    | none => Chan.made
  let timeout : Duration :=
    if opts.Timeout ≠ 0 then opts.Timeout else w.TimeoutOrDefault TimeoutType.ExecuteTx
  let t2 := t ++ [Event.TimeoutOrDefault TimeoutType.ExecuteTx]
  let run := sendTransaction w txID txProposalResponses notifier timeout
  if opts.Notifier ≠ none then
    { returned := some (txID, none), trace := t2, spawned := some run, panicked := false }
  else
    match w.callerTimerFirst, executeSends run with
    | false, response :: _ =>
      { returned := some (response.Response, response.Error),
        trace := t2 ++ [Event.selectNotifier notifier timeout],
        spawned := some run, panicked := false }
    | _, _ =>
      { returned := some (txID, some (Error.new "ExecuteTx request timed out")),
        trace := t2 ++ [Event.selectNotifier notifier timeout],
        spawned := some run, panicked := false }

/-- The proposal and filter steps of `ExecuteTxWithOpts` (lines 193-208),
entered with the trace `t` of the processor resolution. -/
def executePropose (w : World) (request : ExecuteTxRequest) (opts : ExecuteTxOpts)
    (t : List Event) (txProcessors : List ProposalProcessor) : Outcome TransactionID :=
  let call := executeCall request txProcessors
  let res := w.CreateAndSendTransactionProposal call
  let t1 := t ++ [Event.CreateAndSendTransactionProposal call]
  match res.err with
  | some err =>
    { returned := some (TransactionID.zero,
        some (Error.withMessage err "CreateAndSendTransactionProposal failed")),
      trace := t1, spawned := none, panicked := false }
  | none =>
    let txFilter : TxProposalResponseFilter :=
      match opts.TxFilter with
      | none => ProcessTxProposalResponse
      | some f => f
    match txFilter res.responses with
    | Except.error err =>
      { returned := some (res.txID, some (Error.withMessage err "TxFilter failed")),
        trace := t1, spawned := none, panicked := false }
    | Except.ok txProposalResponses =>
      executeDispatch w opts t1 res.txID txProposalResponses

/-- `ChannelClient.ExecuteTxWithOpts`. -/
def ExecuteTxWithOpts (w : World) (request : ExecuteTxRequest) (opts : ExecuteTxOpts) :
    Outcome TransactionID :=
  if request.ChaincodeID = "" ∨ request.Fcn = "" then
    { returned := some (TransactionID.zero,
        some (Error.new "chaincode name and function name are required")),
      trace := [], spawned := none, panicked := false }
  else
    match executeProcessors w request opts with
    | (Except.error err, t) =>
      { returned := some (TransactionID.zero, some err), trace := t, spawned := none,
        panicked := false }
    | (Except.ok txProcessors, t) => executePropose w request opts t txProcessors

/-! ## Sample behaviours of the collaborators -/

/-- A behaviour in which every collaborator succeeds: two peers are discovered,
the proposal is answered by one response of status 200 under transaction id
`tx1`, the event hub is connected and the commit event reports `VALID`. -/
def sunnyWorld : World where
  GetPeers := Except.ok ["peer0", "peer1"]
  selection := none
  NewTxnID := Except.ok { ID := "tx0", Nonce := [0] }
  CreateAndSendTransactionProposal := fun _ =>
    { responses := [⟨200, "OK", [42]⟩], txID := { ID := "tx1", Nonce := [1] }, err := none }
  TimeoutOrDefault := fun _ => 1000
  IsConnected := true
  Connect := none
  CreateAndSendTransaction := fun _ => none
  commitEvent := some TxValidationCode_VALID
  callerTimerFirst := false

/-- A behaviour in which the event hub is not connected and `Connect` fails,
while the submission succeeds and the commit event reports `VALID`. -/
def connectFailsWorld : World where
  GetPeers := Except.ok ["peer0"]
  selection := none
  NewTxnID := Except.ok { ID := "tx0", Nonce := [0] }
  CreateAndSendTransactionProposal := fun _ =>
    { responses := [⟨200, "OK", [42]⟩], txID := { ID := "tx1", Nonce := [1] }, err := none }
  TimeoutOrDefault := fun _ => 1000
  IsConnected := false
  Connect := some (Error.new "connection refused")
  CreateAndSendTransaction := fun _ => none
  commitEvent := some TxValidationCode_VALID
  callerTimerFirst := false

/-- A behaviour in which the proposal primitive returns an empty response
sequence and no error. -/
def emptyResponsesWorld : World where
  GetPeers := Except.ok ["peer0"]
  selection := none
  NewTxnID := Except.ok { ID := "tx0", Nonce := [0] }
  CreateAndSendTransactionProposal := fun _ =>
    { responses := [], txID := { ID := "tx1", Nonce := [1] }, err := none }
  TimeoutOrDefault := fun _ => 1000
  IsConnected := true
  Connect := none
  CreateAndSendTransaction := fun _ => none
  commitEvent := some TxValidationCode_VALID
  callerTimerFirst := false

/-- A behaviour in which discovery succeeds with no peer at all. -/
def noPeersWorld : World where
  GetPeers := Except.ok []
  selection := none
  NewTxnID := Except.ok { ID := "tx0", Nonce := [0] }
  CreateAndSendTransactionProposal := fun _ =>
    { responses := [⟨200, "OK", [42]⟩], txID := { ID := "tx1", Nonce := [1] }, err := none }
  TimeoutOrDefault := fun _ => 1000
  IsConnected := true
  Connect := none
  CreateAndSendTransaction := fun _ => none
  commitEvent := some TxValidationCode_VALID
  callerTimerFirst := false

/-- A behaviour in which discovery fails. -/
def discoveryFailsWorld : World where
  GetPeers := Except.error (Error.new "discovery unavailable")
  selection := none
  NewTxnID := Except.ok { ID := "tx0", Nonce := [0] }
  CreateAndSendTransactionProposal := fun _ =>
    { responses := [⟨200, "OK", [42]⟩], txID := { ID := "tx1", Nonce := [1] }, err := none }
  TimeoutOrDefault := fun _ => 1000
  IsConnected := true
  Connect := none
  CreateAndSendTransaction := fun _ => none
  commitEvent := some TxValidationCode_VALID
  callerTimerFirst := false

/-! ## Lemmas on the default filter -/

theorem bytesCompare_eq_zero_iff (a b : Bytes) : bytesCompare a b = 0 ↔ a = b := by
  induction a generalizing b with
  | nil => cases b <;> simp [bytesCompare]
  | cons x xs ih =>
    cases b with
    | nil => simp [bytesCompare]
    | cons y ys =>
      simp only [bytesCompare]
      by_cases h1 : x < y
      · have hne : x ≠ y := fun h => by subst h; exact absurd h1 (UInt8.lt_irrefl _)
        simp [h1, hne]
      · by_cases h2 : y < x
        · have hne : x ≠ y := fun h => by subst h; exact absurd h2 (UInt8.lt_irrefl _)
          simp [h1, h2, hne]
        · have hxy : x = y := UInt8.le_antisymm (UInt8.not_lt.mp h2) (UInt8.not_lt.mp h1)
          subst hxy
          simp [h1, ih]

/-- The loop past index 0 runs to its end exactly when every remaining response
has status 200 and the reference payload. -/
theorem rangeLoop_succ_eq_none (a1 : Bytes) (n : Nat) (rs : List TransactionProposalResponse) :
    rangeLoop a1 (n + 1) rs = none ↔ ∀ r ∈ rs, r.Status = 200 ∧ r.Payload = a1 := by
  induction rs generalizing n with
  | nil => simp [rangeLoop]
  | cons r rest ih =>
    simp only [rangeLoop, List.mem_cons, forall_eq_or_imp]
    by_cases hs : r.Status = 200
    · by_cases hp : r.Payload = a1
      · have hc : bytesCompare a1 r.Payload = 0 := (bytesCompare_eq_zero_iff _ _).mpr hp.symm
        have hc2 : bytesCompare a1 a1 = 0 := (bytesCompare_eq_zero_iff _ _).mpr rfl
        simp only [hs, hp, hc, hc2, ne_eq, not_true_eq_false, if_false, and_self, true_and,
          Nat.succ_ne_zero]
        exact ih (n + 1)
      · have hc : bytesCompare a1 r.Payload ≠ 0 := fun h =>
          hp ((bytesCompare_eq_zero_iff _ _).mp h).symm
        simp [hs, hp, hc]
    · simp [hs]

/-- The loop past index 0 returns the error of the first response that has a
status other than 200 or a payload other than the reference payload. -/
theorem rangeLoop_succ_first (a1 : Bytes) (n : Nat) (rs : List TransactionProposalResponse)
    (i : Nat) (r : TransactionProposalResponse) (hi : rs[i]? = some r)
    (hbad : r.Status ≠ 200 ∨ r.Payload ≠ a1)
    (hmin : ∀ (j : Nat) (r' : TransactionProposalResponse), j < i → rs[j]? = some r' →
      r'.Status = 200 ∧ r'.Payload = a1) :
    rangeLoop a1 (n + 1) rs =
      some (if r.Status ≠ 200 then Error.proposalNotSuccessful r.Status r.Message
            else Error.payloadsDoNotMatch) := by
  induction rs generalizing n i with
  | nil => simp at hi
  | cons x rest ih =>
    cases i with
    | zero =>
      simp at hi
      subst hi
      by_cases hs : x.Status = 200
      · have hp : x.Payload ≠ a1 := by
          rcases hbad with h | h
          · exact absurd hs h
          · exact h
        have hc : bytesCompare a1 x.Payload ≠ 0 := fun h =>
          hp ((bytesCompare_eq_zero_iff _ _).mp h).symm
        simp [rangeLoop, hs, hc]
      · simp [rangeLoop, hs]
    | succ i =>
      have hx := hmin 0 x (Nat.succ_pos i) (by simp)
      have hc : bytesCompare a1 x.Payload = 0 := (bytesCompare_eq_zero_iff _ _).mpr hx.2.symm
      have hrest := ih (n + 1) i (by simpa using hi)
        (fun j r' hj hr' => hmin (j + 1) r' (Nat.succ_lt_succ hj) (by simpa using hr'))
      simp only [rangeLoop, hx.1, hc]
      simpa using hrest

/-- The filter on a non-empty sequence: the status of the first response is
checked, its payload becomes the reference, and the loop goes on at index 1. -/
theorem ProcessTxProposalResponse_cons (r0 : TransactionProposalResponse)
    (rest : List TransactionProposalResponse) :
    ProcessTxProposalResponse (r0 :: rest) =
      if r0.Status ≠ 200 then
        Except.error (Error.proposalNotSuccessful r0.Status r0.Message)
      else
        match rangeLoop r0.Payload 1 rest with
        | some e => Except.error e
        | none => Except.ok (r0 :: rest) := by
  by_cases hs : r0.Status = 200 <;> simp [ProcessTxProposalResponse, rangeLoop, hs]

/-- The filter succeeds, returning its input, exactly when the loop finds no
offending response. -/
theorem ProcessTxProposalResponse_ok_iff (rs : List TransactionProposalResponse) :
    ProcessTxProposalResponse rs = Except.ok rs ↔
      ∀ (i : Nat) (r : TransactionProposalResponse), rs[i]? = some r →
        r.Status = 200 ∧
          (0 < i → ∀ r0 : TransactionProposalResponse, rs[0]? = some r0 →
            r.Payload = r0.Payload) := by
  cases rs with
  | nil => simp [ProcessTxProposalResponse, rangeLoop]
  | cons r0 rest =>
    rw [ProcessTxProposalResponse_cons]
    by_cases hs : r0.Status = 200
    · simp only [hs, ne_eq, not_true_eq_false, if_false]
      constructor
      · intro h
        have hnone : rangeLoop r0.Payload (0 + 1) rest = none := by
          cases hl : rangeLoop r0.Payload 1 rest with
          | none => simp
          | some e => simp [hl] at h
        have hall := (rangeLoop_succ_eq_none _ _ _).mp hnone
        intro i r hi
        cases i with
        | zero =>
          simp at hi
          subst hi
          exact ⟨hs, fun h0 => absurd h0 (lt_irrefl 0)⟩
        | succ i =>
          have hmem : r ∈ rest := by
            have hi2 : rest[i]? = some r := by simpa using hi
            exact List.getElem?_mem hi2
          refine ⟨(hall r hmem).1, fun _ r0' h0 => ?_⟩
          simp at h0
          subst h0
          exact (hall r hmem).2
      · intro h
        have hnone : rangeLoop r0.Payload (0 + 1) rest = none := by
          rw [rangeLoop_succ_eq_none]
          intro r hr
          obtain ⟨i, hi⟩ := List.mem_iff_getElem?.mp hr
          have hi2 : (r0 :: rest)[i + 1]? = some r := by simpa using hi
          have := h (i + 1) r hi2
          exact ⟨this.1, this.2 (Nat.succ_pos i) r0 (by simp)⟩
        simp at hnone
        simp [hnone]
    · simp only [hs, ne_eq, not_false_eq_true, if_true]
      constructor
      · intro h
        cases h
      · intro h
        exact absurd (h 0 r0 (by simp)).1 hs

/-- The filter returns the error of the first offending response: the status
failure when that response has a status other than 200, the payload mismatch
otherwise. -/
theorem ProcessTxProposalResponse_first (rs : List TransactionProposalResponse)
    (i : Nat) (r r0 : TransactionProposalResponse)
    (hi : rs[i]? = some r) (h0 : rs[0]? = some r0)
    (hbad : r.Status ≠ 200 ∨ (0 < i ∧ r.Payload ≠ r0.Payload))
    (hmin : ∀ (j : Nat) (r' : TransactionProposalResponse), j < i → rs[j]? = some r' →
      r'.Status = 200 ∧ (0 < j → r'.Payload = r0.Payload)) :
    ProcessTxProposalResponse rs =
      Except.error (if r.Status ≠ 200 then Error.proposalNotSuccessful r.Status r.Message
                    else Error.payloadsDoNotMatch) := by
  cases rs with
  | nil => simp at hi
  | cons x rest =>
    simp at h0
    subst h0
    rw [ProcessTxProposalResponse_cons]
    cases i with
    | zero =>
      simp at hi
      subst hi
      have hs : x.Status ≠ 200 := by
        rcases hbad with h | h
        · exact h
        · exact absurd h.1 (lt_irrefl 0)
      simp [hs]
    | succ i =>
      have hx := (hmin 0 x (Nat.succ_pos i) (by simp)).1
      have hbad2 : r.Status ≠ 200 ∨ r.Payload ≠ x.Payload := by
        rcases hbad with h | h
        · exact Or.inl h
        · exact Or.inr h.2
      have hloop := rangeLoop_succ_first x.Payload 0 rest i r (by simpa using hi) hbad2
        (fun j r' hj hr' => by
          have := hmin (j + 1) r' (Nat.succ_lt_succ hj) (by simpa using hr')
          exact ⟨this.1, this.2 (Nat.succ_pos j)⟩)
      simp at hloop
      simp [hx, hloop]

/-- Among the indices up to `k` at which a property holds there is a first one. -/
theorem exists_first_index (P : Nat → Prop) (k : Nat) (hk : P k) :
    ∃ m, m ≤ k ∧ P m ∧ ∀ j, j < m → ¬ P j := by
  classical
  exact ⟨Nat.find ⟨k, hk⟩, Nat.find_min' _ hk, Nat.find_spec _, fun j hj => Nat.find_min _ hj⟩

/-! ## The default filter: claims -/

/-- C1: on a non-empty sequence in which every response has status 200 and the
payload of the first response, the default filter returns no error and exactly
the input sequence. -/
theorem ProcessTxProposalResponse_uniform (rs : List TransactionProposalResponse)
    (r0 : TransactionProposalResponse) (hfirst : rs[0]? = some r0)
    (hstatus : ∀ r ∈ rs, r.Status = 200)
    (hpayload : ∀ r ∈ rs, r.Payload = r0.Payload) :
    ProcessTxProposalResponse rs = Except.ok rs := by
  rw [ProcessTxProposalResponse_ok_iff]
  intro i r hi
  have hmem : r ∈ rs := List.getElem?_mem hi
  refine ⟨hstatus r hmem, fun _ r0' h0 => ?_⟩
  rw [hfirst] at h0
  cases h0
  exact hpayload r hmem

theorem ProcessTxProposalResponse_uniform_witness :
    ProcessTxProposalResponse
        [⟨200, "OK", [1, 2]⟩, ⟨200, "fine", [1, 2]⟩, ⟨200, "", [1, 2]⟩] =
      Except.ok [⟨200, "OK", [1, 2]⟩, ⟨200, "fine", [1, 2]⟩, ⟨200, "", [1, 2]⟩] :=
  ProcessTxProposalResponse_uniform _ ⟨200, "OK", [1, 2]⟩ (by decide) (by decide) (by decide)

/-- C10: the result of the default filter is decided by the smallest index `i`
at which the response has a status other than 200 or, for `i > 0`, a payload
other than that of response 0.  Without such an index the input is returned
unchanged (the empty sequence included); with one, the result is the status
failure carrying the status and message of response `i` when its status is not
200, and the payload mismatch otherwise.  Success is equivalent to all statuses
being 200 and all payloads being pairwise equal. -/
theorem ProcessTxProposalResponse_decided (rs : List TransactionProposalResponse) :
    ((∀ (i : Nat) (r : TransactionProposalResponse), rs[i]? = some r →
        ¬ (r.Status ≠ 200 ∨
            (0 < i ∧ ∃ r0 : TransactionProposalResponse,
              rs[0]? = some r0 ∧ r.Payload ≠ r0.Payload))) →
      ProcessTxProposalResponse rs = Except.ok rs) ∧
    (∀ (i : Nat) (r r0 : TransactionProposalResponse), rs[i]? = some r → rs[0]? = some r0 →
      (r.Status ≠ 200 ∨ (0 < i ∧ r.Payload ≠ r0.Payload)) →
      (∀ (j : Nat) (r' : TransactionProposalResponse), j < i → rs[j]? = some r' →
        ¬ (r'.Status ≠ 200 ∨ (0 < j ∧ r'.Payload ≠ r0.Payload))) →
      ProcessTxProposalResponse rs =
        Except.error (if r.Status ≠ 200 then Error.proposalNotSuccessful r.Status r.Message
                      else Error.payloadsDoNotMatch)) ∧
    ProcessTxProposalResponse [] = Except.ok [] ∧
    ((∃ out, ProcessTxProposalResponse rs = Except.ok out) ↔
      (∀ r ∈ rs, r.Status = 200) ∧ ∀ r ∈ rs, ∀ r' ∈ rs, r.Payload = r'.Payload) ∧
    (∀ out, ProcessTxProposalResponse rs = Except.ok out → out = rs) := by
  have hout : ∀ out, ProcessTxProposalResponse rs = Except.ok out → out = rs := by
    intro out h
    unfold ProcessTxProposalResponse at h
    split at h
    · cases h
    · cases h
      rfl
  refine ⟨?_, ?_, by decide, ?_, hout⟩
  · intro h
    rw [ProcessTxProposalResponse_ok_iff]
    intro i r hi
    have hn := h i r hi
    refine ⟨by_contra fun hs => hn (Or.inl hs), fun hpos r0 h0 => ?_⟩
    exact by_contra fun hp => hn (Or.inr ⟨hpos, r0, h0, hp⟩)
  · intro i r r0 hi h0 hbad hmin
    refine ProcessTxProposalResponse_first rs i r r0 hi h0 hbad ?_
    intro j r' hj hr'
    have hn := hmin j r' hj hr'
    exact ⟨by_contra fun hs => hn (Or.inl hs),
      fun hpos => by_contra fun hp => hn (Or.inr ⟨hpos, hp⟩)⟩
  · constructor
    · rintro ⟨out, h⟩
      have hrs := hout out h
      subst hrs
      have hall := (ProcessTxProposalResponse_ok_iff out).mp h
      have hst : ∀ r ∈ out, r.Status = 200 := by
        intro r hr
        obtain ⟨i, hi⟩ := List.mem_iff_getElem?.mp hr
        exact (hall i r hi).1
      have hp0 : ∀ r ∈ out, ∀ r0 : TransactionProposalResponse,
          out[0]? = some r0 → r.Payload = r0.Payload := by
        intro r hr r0 h0
        obtain ⟨i, hi⟩ := List.mem_iff_getElem?.mp hr
        cases i with
        | zero =>
          rw [h0] at hi
          cases hi
          rfl
        | succ i => exact (hall (i + 1) r hi).2 (Nat.succ_pos i) r0 h0
      refine ⟨hst, fun r hr r' hr' => ?_⟩
      cases out with
      | nil => simp at hr
      | cons x rest =>
        rw [hp0 r hr x (by simp), hp0 r' hr' x (by simp)]
    · rintro ⟨hst, hp⟩
      refine ⟨rs, ?_⟩
      rw [ProcessTxProposalResponse_ok_iff]
      intro i r hi
      exact ⟨hst r (List.getElem?_mem hi),
        fun _ r0 h0 => hp r (List.getElem?_mem hi) r0 (List.getElem?_mem h0)⟩

theorem ProcessTxProposalResponse_decided_witness :
    ProcessTxProposalResponse [⟨200, "a", [7]⟩, ⟨200, "b", [7]⟩, ⟨404, "gone", [8]⟩, ⟨200, "c", [9]⟩] =
      Except.error (Error.proposalNotSuccessful 404 "gone") :=
  (ProcessTxProposalResponse_decided
      [⟨200, "a", [7]⟩, ⟨200, "b", [7]⟩, ⟨404, "gone", [8]⟩, ⟨200, "c", [9]⟩]).2.1
    2 ⟨404, "gone", [8]⟩ ⟨200, "a", [7]⟩ (by decide) (by decide) (by decide)
    (by
      intro j r' hj hr'
      have hj2 : j = 0 ∨ j = 1 := by omega
      rcases hj2 with h | h <;> subst h <;> simp at hr' <;> subst hr' <;> decide)

/-- C2, as stated, fails: with two responses whose payloads differ and a second
status of 500, the default filter returns the status failure, not the payload
mismatch. -/
theorem ProcessTxProposalResponse_mismatch_counterexample :
    ([⟨200, "", [1]⟩, ⟨500, "boom", [2]⟩] : List TransactionProposalResponse).length ≥ 2 ∧
    (⟨500, "boom", [2]⟩ : TransactionProposalResponse).Payload ≠
      (⟨200, "", [1]⟩ : TransactionProposalResponse).Payload ∧
    ProcessTxProposalResponse [⟨200, "", [1]⟩, ⟨500, "boom", [2]⟩] =
      Except.error (Error.proposalNotSuccessful 500 "boom") ∧
    ProcessTxProposalResponse [⟨200, "", [1]⟩, ⟨500, "boom", [2]⟩] ≠
      Except.error Error.payloadsDoNotMatch := by
  decide

/-- C2, amended: when some response `k > 0` has a payload other than that of
response 0, the default filter fails.  With `m` the first such index, it fails
with the payload mismatch when responses `0..m` all have status 200, and with
the status failure of the first response of status other than 200 when there
is one among responses `0..m`. -/
theorem ProcessTxProposalResponse_mismatch (rs : List TransactionProposalResponse)
    (k : Nat) (r0 rk : TransactionProposalResponse)
    (h0 : rs[0]? = some r0) (hk : rs[k]? = some rk) (hpos : 0 < k)
    (hne : rk.Payload ≠ r0.Payload) :
    (∃ e, ProcessTxProposalResponse rs = Except.error e) ∧
    ∃ (m : Nat) (rm : TransactionProposalResponse),
      0 < m ∧ m ≤ k ∧ rs[m]? = some rm ∧ rm.Payload ≠ r0.Payload ∧
      (∀ (j : Nat) (r : TransactionProposalResponse), 0 < j → j < m → rs[j]? = some r →
        r.Payload = r0.Payload) ∧
      ((∀ (j : Nat) (r : TransactionProposalResponse), j ≤ m → rs[j]? = some r →
          r.Status = 200) →
        ProcessTxProposalResponse rs = Except.error Error.payloadsDoNotMatch) ∧
      (∀ (j : Nat) (r : TransactionProposalResponse), j ≤ m → rs[j]? = some r →
        r.Status ≠ 200 →
        (∀ (i : Nat) (r' : TransactionProposalResponse), i < j → rs[i]? = some r' →
          r'.Status = 200) →
        ProcessTxProposalResponse rs =
          Except.error (Error.proposalNotSuccessful r.Status r.Message)) := by
  obtain ⟨m, hmk, ⟨hmpos, rm, hm, hmne⟩, hmmin⟩ :=
    exists_first_index
      (fun m => 0 < m ∧ ∃ rm : TransactionProposalResponse,
        rs[m]? = some rm ∧ rm.Payload ≠ r0.Payload) k ⟨hpos, rk, hk, hne⟩
  have hbefore : ∀ (j : Nat) (r : TransactionProposalResponse), 0 < j → j < m →
      rs[j]? = some r → r.Payload = r0.Payload := by
    intro j r hj hjm hr
    exact by_contra fun hp => hmmin j hjm ⟨hj, r, hr, hp⟩
  have hmis : (∀ (j : Nat) (r : TransactionProposalResponse), j ≤ m → rs[j]? = some r →
      r.Status = 200) →
      ProcessTxProposalResponse rs = Except.error Error.payloadsDoNotMatch := by
    intro hall
    have h := ProcessTxProposalResponse_first rs m rm r0 hm h0 (Or.inr ⟨hmpos, hmne⟩)
      (fun j r' hj hr' => ⟨hall j r' (Nat.le_of_lt hj) hr', fun hjp => hbefore j r' hjp hj hr'⟩)
    simpa [hall m rm (Nat.le_refl m) hm] using h
  have hsts : ∀ (j : Nat) (r : TransactionProposalResponse), j ≤ m → rs[j]? = some r →
      r.Status ≠ 200 →
      (∀ (i : Nat) (r' : TransactionProposalResponse), i < j → rs[i]? = some r' →
        r'.Status = 200) →
      ProcessTxProposalResponse rs =
        Except.error (Error.proposalNotSuccessful r.Status r.Message) := by
    intro j r hjm hr hs hall
    have h := ProcessTxProposalResponse_first rs j r r0 hr h0 (Or.inl hs)
      (fun i r' hi hr' =>
        ⟨hall i r' hi hr', fun hip => hbefore i r' hip (Nat.lt_of_lt_of_le hi hjm) hr'⟩)
    simpa [hs] using h
  refine ⟨?_, m, rm, hmpos, hmk, hm, hmne, hbefore, hmis, hsts⟩
  by_cases hall : ∀ (j : Nat) (r : TransactionProposalResponse), j ≤ m → rs[j]? = some r →
      r.Status = 200
  · exact ⟨_, hmis hall⟩
  · push_neg at hall
    obtain ⟨j, r, hjm, hr, hs⟩ := hall
    obtain ⟨j', _, ⟨hj'm, r', hr', hs'⟩, hj'min⟩ :=
      exists_first_index
        (fun j => j ≤ m ∧ ∃ r : TransactionProposalResponse, rs[j]? = some r ∧ r.Status ≠ 200)
        j ⟨hjm, r, hr, hs⟩
    refine ⟨_, hsts j' r' hj'm hr' hs' ?_⟩
    intro i x hi hx
    exact by_contra fun hxs =>
      hj'min i hi ⟨Nat.le_of_lt (Nat.lt_of_lt_of_le hi hj'm), x, hx, hxs⟩

theorem ProcessTxProposalResponse_mismatch_witness :
    ∃ e, ProcessTxProposalResponse [⟨200, "", [1]⟩, ⟨200, "", [1]⟩, ⟨200, "x", [3]⟩] =
      Except.error e :=
  (ProcessTxProposalResponse_mismatch
    [⟨200, "", [1]⟩, ⟨200, "", [1]⟩, ⟨200, "x", [3]⟩] 2 ⟨200, "", [1]⟩ ⟨200, "x", [3]⟩
    (by decide) (by decide) (by decide) (by decide)).1

/-- C3, as stated, fails: the third response has status 500, but the payload of
the second differs from that of the first, and the default filter returns the
payload mismatch, not a status failure. -/
theorem ProcessTxProposalResponse_status_counterexample :
    ([⟨200, "", [1]⟩, ⟨200, "", [2]⟩, ⟨500, "boom", [1]⟩] :
      List TransactionProposalResponse) ≠ [] ∧
    (⟨500, "boom", [1]⟩ : TransactionProposalResponse) ∈
      ([⟨200, "", [1]⟩, ⟨200, "", [2]⟩, ⟨500, "boom", [1]⟩] :
        List TransactionProposalResponse) ∧
    (⟨500, "boom", [1]⟩ : TransactionProposalResponse).Status ≠ 200 ∧
    ProcessTxProposalResponse [⟨200, "", [1]⟩, ⟨200, "", [2]⟩, ⟨500, "boom", [1]⟩] =
      Except.error Error.payloadsDoNotMatch := by
  decide

/-- C3, amended: when some response has a status other than 200, the default
filter fails.  With `m` the first index of such a response, it fails with the
status failure carrying the status and message of response `m` when no response
before `m` has a payload other than that of response 0 (so always when the
sequence has one response), and with the payload mismatch when one has. -/
theorem ProcessTxProposalResponse_status (rs : List TransactionProposalResponse)
    (k : Nat) (rk : TransactionProposalResponse)
    (hk : rs[k]? = some rk) (hs : rk.Status ≠ 200) :
    (∃ e, ProcessTxProposalResponse rs = Except.error e) ∧
    (rs.length = 1 →
      ProcessTxProposalResponse rs =
        Except.error (Error.proposalNotSuccessful rk.Status rk.Message)) ∧
    ∃ (m : Nat) (rm r0 : TransactionProposalResponse),
      m ≤ k ∧ rs[m]? = some rm ∧ rs[0]? = some r0 ∧ rm.Status ≠ 200 ∧
      (∀ (j : Nat) (r : TransactionProposalResponse), j < m → rs[j]? = some r →
        r.Status = 200) ∧
      ((∀ (j : Nat) (r : TransactionProposalResponse), 0 < j → j < m → rs[j]? = some r →
          r.Payload = r0.Payload) →
        ProcessTxProposalResponse rs =
          Except.error (Error.proposalNotSuccessful rm.Status rm.Message)) ∧
      ((∃ (j : Nat) (r : TransactionProposalResponse), 0 < j ∧ j < m ∧ rs[j]? = some r ∧
          r.Payload ≠ r0.Payload) →
        ProcessTxProposalResponse rs = Except.error Error.payloadsDoNotMatch) := by
  obtain ⟨r0, h0⟩ : ∃ r0 : TransactionProposalResponse, rs[0]? = some r0 := by
    cases rs with
    | nil => simp at hk
    | cons x rest => exact ⟨x, by simp⟩
  obtain ⟨m, hmk, ⟨rm, hm, hms⟩, hmmin⟩ :=
    exists_first_index
      (fun m => ∃ rm : TransactionProposalResponse, rs[m]? = some rm ∧ rm.Status ≠ 200)
      k ⟨rk, hk, hs⟩
  have hbefore : ∀ (j : Nat) (r : TransactionProposalResponse), j < m → rs[j]? = some r →
      r.Status = 200 := by
    intro j r hj hr
    exact by_contra fun hx => hmmin j hj ⟨r, hr, hx⟩
  have hsts : (∀ (j : Nat) (r : TransactionProposalResponse), 0 < j → j < m →
      rs[j]? = some r → r.Payload = r0.Payload) →
      ProcessTxProposalResponse rs =
        Except.error (Error.proposalNotSuccessful rm.Status rm.Message) := by
    intro hpay
    have h := ProcessTxProposalResponse_first rs m rm r0 hm h0 (Or.inl hms)
      (fun j r' hj hr' => ⟨hbefore j r' hj hr', fun hjp => hpay j r' hjp hj hr'⟩)
    simpa [hms] using h
  have hmis : (∃ (j : Nat) (r : TransactionProposalResponse), 0 < j ∧ j < m ∧
      rs[j]? = some r ∧ r.Payload ≠ r0.Payload) →
      ProcessTxProposalResponse rs = Except.error Error.payloadsDoNotMatch := by
    rintro ⟨j, r, hj, hjm, hr, hp⟩
    obtain ⟨j', hj'j, ⟨hj'pos, r', hr', hp'⟩, hj'min⟩ :=
      exists_first_index
        (fun j => 0 < j ∧ ∃ r : TransactionProposalResponse,
          rs[j]? = some r ∧ r.Payload ≠ r0.Payload) j ⟨hj, r, hr, hp⟩
    have hj'm : j' < m := Nat.lt_of_le_of_lt hj'j hjm
    have h := ProcessTxProposalResponse_first rs j' r' r0 hr' h0 (Or.inr ⟨hj'pos, hp'⟩)
      (fun i x hi hx => ⟨hbefore i x (Nat.lt_trans hi hj'm) hx,
        fun hip => by_contra fun hxp => hj'min i hi ⟨hip, x, hx, hxp⟩⟩)
    simpa [hbefore j' r' hj'm hr'] using h
  refine ⟨?_, ?_, m, rm, r0, hmk, hm, h0, hms, hbefore, hsts, hmis⟩
  · by_cases hex : ∃ (j : Nat) (r : TransactionProposalResponse), 0 < j ∧ j < m ∧
        rs[j]? = some r ∧ r.Payload ≠ r0.Payload
    · exact ⟨_, hmis hex⟩
    · refine ⟨_, hsts ?_⟩
      intro j r hj hjm hr
      exact by_contra fun hp => hex ⟨j, r, hj, hjm, hr, hp⟩
  · intro hlen
    have hk0 : k = 0 := by
      have := (List.getElem?_eq_some.mp hk).1
      omega
    subst hk0
    have hm0 : m = 0 := Nat.le_zero.mp hmk
    subst hm0
    rw [hk] at hm
    cases hm
    exact hsts (fun j r hj hjm _ => absurd hjm (Nat.not_lt_zero j))

theorem ProcessTxProposalResponse_status_witness :
    ProcessTxProposalResponse [⟨500, "boom", [1]⟩] =
      Except.error (Error.proposalNotSuccessful 500 "boom") :=
  (ProcessTxProposalResponse_status [⟨500, "boom", [1]⟩] 0 ⟨500, "boom", [1]⟩
    (by decide) (by decide)).2.1 (by decide)

/-! ## Lemmas on the public operations -/

/-- Where the proposal and filter steps of `ExecuteTxWithOpts` start the
goroutine, the proposal primitive returned no error, and the call ends as
`executeDispatch` on the transaction id the primitive returned. -/
theorem executePropose_spawned (w : World) (request : ExecuteTxRequest) (opts : ExecuteTxOpts)
    (t : List Event) (txProcessors : List ProposalProcessor)
    (h : (executePropose w request opts t txProcessors).spawned ≠ none) :
    ∃ rs : List TransactionProposalResponse,
      (w.CreateAndSendTransactionProposal (executeCall request txProcessors)).err = none ∧
      executePropose w request opts t txProcessors =
        executeDispatch w opts
          (t ++ [Event.CreateAndSendTransactionProposal (executeCall request txProcessors)])
          (w.CreateAndSendTransactionProposal (executeCall request txProcessors)).txID rs := by
  cases herr : (w.CreateAndSendTransactionProposal (executeCall request txProcessors)).err with
  | some err =>
    simp [executePropose, herr] at h
  | none =>
    have herr2 := herr
    cases hopt : opts.TxFilter with
    | none =>
      cases hf : ProcessTxProposalResponse
          (w.CreateAndSendTransactionProposal (executeCall request txProcessors)).responses with
      | error e =>
        simp [executePropose, herr2, hopt, hf] at h
      | ok rs =>
        refine ⟨rs, rfl, ?_⟩
        simp [executePropose, herr2, hopt, hf]
    | some f =>
      cases hf : f
          (w.CreateAndSendTransactionProposal (executeCall request txProcessors)).responses with
      | error e =>
        simp [executePropose, herr2, hopt, hf] at h
      | ok rs =>
        refine ⟨rs, rfl, ?_⟩
        simp [executePropose, herr2, hopt, hf]

/-- Where `ExecuteTxWithOpts` starts the goroutine, the request was valid, the
processors were resolved, the proposal primitive returned no error, and the
call ends as `executeDispatch` on the transaction id the primitive returned. -/
theorem ExecuteTxWithOpts_spawned (w : World) (request : ExecuteTxRequest)
    (opts : ExecuteTxOpts) (h : (ExecuteTxWithOpts w request opts).spawned ≠ none) :
    ∃ (t1 : List Event) (txID : TransactionID) (rs : List TransactionProposalResponse)
      (call : ProposalCall),
      (¬ (request.ChaincodeID = "" ∨ request.Fcn = "") ∧
        ∃ tr, executeProcessors w request opts = (Except.ok call.targets, tr) ∧
          call = executeCall request call.targets ∧
          t1 = tr ++ [Event.CreateAndSendTransactionProposal call]) ∧
      (w.CreateAndSendTransactionProposal call).err = none ∧
      txID = (w.CreateAndSendTransactionProposal call).txID ∧
      ExecuteTxWithOpts w request opts = executeDispatch w opts t1 txID rs := by
  by_cases hvalid : request.ChaincodeID = "" ∨ request.Fcn = ""
  · simp [ExecuteTxWithOpts, hvalid] at h
  · rcases hproc : executeProcessors w request opts with ⟨res, tr⟩
    cases res with
    | error e => simp [ExecuteTxWithOpts, hvalid, hproc] at h
    | ok procs =>
      have heq : ExecuteTxWithOpts w request opts = executePropose w request opts tr procs := by
        simp [ExecuteTxWithOpts, hvalid, hproc]
      rw [heq] at h
      obtain ⟨rs, herr, hdisp⟩ := executePropose_spawned w request opts tr procs h
      exact ⟨_, _, rs, executeCall request procs, ⟨hvalid, tr, rfl, rfl, rfl⟩, herr, rfl,
        heq.trans hdisp⟩

/-- The processor resolution of `QueryWithOpts` only calls discovery and
selection. -/
theorem queryProcessors_trace (w : World) (request : QueryRequest) (opts : QueryOpts) :
    ∀ e ∈ (queryProcessors w request opts).2,
      e = Event.GetPeers ∨ ∃ peers chaincodeID, e = Event.GetEndorsersForChaincode peers chaincodeID := by
  unfold queryProcessors
  split
  · cases w.GetPeers with
    | error err => simp
    | ok peers =>
      cases w.selection with
      | none => simp
      | some sel =>
        cases he : sel peers request.ChaincodeID <;> simp [he]
  · simp

/-- The processors `QueryWithOpts` resolves: the caller's when there are some,
otherwise the discovered peers, narrowed by the selection service if any. -/
theorem queryProcessors_ok (w : World) (request : QueryRequest) (opts : QueryOpts)
    (procs : List ProposalProcessor) (t : List Event)
    (h : queryProcessors w request opts = (Except.ok procs, t)) :
    (opts.ProposalProcessors ≠ [] ∧ procs = opts.ProposalProcessors) ∨
    (opts.ProposalProcessors = [] ∧ ∃ peers, w.GetPeers = Except.ok peers ∧
      ((w.selection = none ∧ procs = PeersToTxnProcessors peers) ∨
        ∃ sel endorsers, w.selection = some sel ∧
          sel peers request.ChaincodeID = Except.ok endorsers ∧
          procs = PeersToTxnProcessors endorsers)) := by
  unfold queryProcessors at h
  by_cases hlen : opts.ProposalProcessors = []
  · right
    refine ⟨hlen, ?_⟩
    simp only [hlen, List.length_nil, if_true] at h
    cases hp : w.GetPeers with
    | error err => simp [hp] at h
    | ok peers =>
      refine ⟨peers, rfl, ?_⟩
      cases hs : w.selection with
      | none =>
        simp [hp, hs] at h
        exact Or.inl ⟨rfl, h.1.symm⟩
      | some sel =>
        cases he : sel peers request.ChaincodeID with
        | error err => simp [hp, hs, he] at h
        | ok endorsers =>
          simp [hp, hs, he] at h
          exact Or.inr ⟨sel, endorsers, rfl, he, h.1.symm⟩
  · left
    have hl : opts.ProposalProcessors.length ≠ 0 := fun h0 => hlen (List.length_eq_zero.mp h0)
    simp [hl] at h
    exact ⟨hlen, h.1.symm⟩

/-- The processor resolution of `ExecuteTxWithOpts` only calls discovery and
selection. -/
theorem executeProcessors_trace (w : World) (request : ExecuteTxRequest)
    (opts : ExecuteTxOpts) :
    ∀ e ∈ (executeProcessors w request opts).2,
      e = Event.GetPeers ∨ ∃ peers chaincodeID, e = Event.GetEndorsersForChaincode peers chaincodeID := by
  unfold executeProcessors
  split
  · cases w.GetPeers with
    | error err => simp
    | ok peers =>
      cases w.selection with
      | none => simp
      | some sel =>
        cases he : sel peers request.ChaincodeID <;> simp [he]
  · simp

/-- The processors `ExecuteTxWithOpts` resolves: the caller's when there are
some, otherwise the discovered peers, narrowed by the selection service if any. -/
theorem executeProcessors_ok (w : World) (request : ExecuteTxRequest) (opts : ExecuteTxOpts)
    (procs : List ProposalProcessor) (t : List Event)
    (h : executeProcessors w request opts = (Except.ok procs, t)) :
    (opts.ProposalProcessors ≠ [] ∧ procs = opts.ProposalProcessors) ∨
    (opts.ProposalProcessors = [] ∧ ∃ peers, w.GetPeers = Except.ok peers ∧
      ((w.selection = none ∧ procs = PeersToTxnProcessors peers) ∨
        ∃ sel endorsers, w.selection = some sel ∧
          sel peers request.ChaincodeID = Except.ok endorsers ∧
          procs = PeersToTxnProcessors endorsers)) := by
  unfold executeProcessors at h
  by_cases hlen : opts.ProposalProcessors = []
  · right
    refine ⟨hlen, ?_⟩
    simp only [hlen, List.length_nil, if_true] at h
    cases hp : w.GetPeers with
    | error err => simp [hp] at h
    | ok peers =>
      refine ⟨peers, rfl, ?_⟩
      cases hs : w.selection with
      | none =>
        simp [hp, hs] at h
        exact Or.inl ⟨rfl, h.1.symm⟩
      | some sel =>
        cases he : sel peers request.ChaincodeID with
        | error err => simp [hp, hs, he] at h
        | ok endorsers =>
          simp [hp, hs, he] at h
          exact Or.inr ⟨sel, endorsers, rfl, he, h.1.symm⟩
  · left
    have hl : opts.ProposalProcessors.length ≠ 0 := fun h0 => hlen (List.length_eq_zero.mp h0)
    simp [hl] at h
    exact ⟨hlen, h.1.symm⟩

/-- The end of `ExecuteTxWithOpts` always starts the goroutine. -/
theorem executeDispatch_spawned (w : World) (opts : ExecuteTxOpts) (t : List Event)
    (txID : TransactionID) (rs : List TransactionProposalResponse) :
    ∃ (notifier : Chan) (timeout : Duration),
      (executeDispatch w opts t txID rs).spawned =
        some (sendTransaction w txID rs notifier timeout) := by
  unfold executeDispatch
  simp only []
  split
  · exact ⟨_, _, rfl⟩
  · split <;> exact ⟨_, _, rfl⟩

/-- In the asynchronous mode the end of `ExecuteTxWithOpts` returns the
transaction id and a nil error, and only adds the configuration lookup to the
trace of the call. -/
theorem executeDispatch_async (w : World) (opts : ExecuteTxOpts) (t : List Event)
    (txID : TransactionID) (rs : List TransactionProposalResponse)
    (h : opts.Notifier ≠ none) :
    (executeDispatch w opts t txID rs).returned = some (txID, none) ∧
    (executeDispatch w opts t txID rs).trace =
      t ++ [Event.TimeoutOrDefault TimeoutType.ExecuteTx] := by
  unfold executeDispatch
  simp [h]

/-- Where the proposal and filter steps of `ExecuteTxWithOpts` start no
goroutine, they return an error, having called the proposal primitive only. -/
theorem executePropose_failed (w : World) (request : ExecuteTxRequest) (opts : ExecuteTxOpts)
    (t : List Event) (txProcessors : List ProposalProcessor)
    (h : (executePropose w request opts t txProcessors).spawned = none) :
    (∃ v err, (executePropose w request opts t txProcessors).returned = some (v, some err)) ∧
    (executePropose w request opts t txProcessors).trace =
      t ++ [Event.CreateAndSendTransactionProposal (executeCall request txProcessors)] := by
  cases herr : (w.CreateAndSendTransactionProposal (executeCall request txProcessors)).err with
  | some err => simp [executePropose, herr]
  | none =>
    cases hopt : opts.TxFilter with
    | none =>
      cases hf : ProcessTxProposalResponse
          (w.CreateAndSendTransactionProposal (executeCall request txProcessors)).responses with
      | error e => simp [executePropose, herr, hopt, hf]
      | ok rs =>
        exfalso
        obtain ⟨n, tm, hsp⟩ := executeDispatch_spawned w opts
          (t ++ [Event.CreateAndSendTransactionProposal (executeCall request txProcessors)])
          (w.CreateAndSendTransactionProposal (executeCall request txProcessors)).txID rs
        simp [executePropose, herr, hopt, hf, hsp] at h
    | some f =>
      cases hf : f
          (w.CreateAndSendTransactionProposal (executeCall request txProcessors)).responses with
      | error e => simp [executePropose, herr, hopt, hf]
      | ok rs =>
        exfalso
        obtain ⟨n, tm, hsp⟩ := executeDispatch_spawned w opts
          (t ++ [Event.CreateAndSendTransactionProposal (executeCall request txProcessors)])
          (w.CreateAndSendTransactionProposal (executeCall request txProcessors)).txID rs
        simp [executePropose, herr, hopt, hf, hsp] at h

/-- The calls of the proposal primitive in the trace of `ExecuteTxWithOpts`
carry the processors that the call resolved. -/
theorem ExecuteTxWithOpts_calls (w : World) (request : ExecuteTxRequest)
    (opts : ExecuteTxOpts) (call : ProposalCall)
    (h : Event.CreateAndSendTransactionProposal call ∈ (ExecuteTxWithOpts w request opts).trace) :
    ∃ procs tr, executeProcessors w request opts = (Except.ok procs, tr) ∧
      call = executeCall request procs := by
  by_cases hvalid : request.ChaincodeID = "" ∨ request.Fcn = ""
  · simp [ExecuteTxWithOpts, hvalid] at h
  · rcases hproc : executeProcessors w request opts with ⟨res, tr⟩
    have htr := executeProcessors_trace w request opts
    rw [hproc] at htr
    have hnot : Event.CreateAndSendTransactionProposal call ∉ tr := by
      intro hmem
      rcases htr _ hmem with h1 | ⟨_, _, h1⟩ <;> cases h1
    cases res with
    | error e =>
      simp [ExecuteTxWithOpts, hvalid, hproc] at h
      exact absurd h hnot
    | ok procs =>
      refine ⟨procs, tr, rfl, ?_⟩
      have heq : ExecuteTxWithOpts w request opts = executePropose w request opts tr procs := by
        simp [ExecuteTxWithOpts, hvalid, hproc]
      rw [heq] at h
      by_cases hsp : (executePropose w request opts tr procs).spawned = none
      · rw [(executePropose_failed w request opts tr procs hsp).2] at h
        simp at h
        rcases h with h | h
        · exact absurd h hnot
        · exact h
      · obtain ⟨rs, _, hdisp⟩ := executePropose_spawned w request opts tr procs hsp
        rw [hdisp] at h
        unfold executeDispatch at h
        simp only [] at h
        split at h
        · simp at h
          rcases h with h | h
          · exact absurd h hnot
          · exact h
        · split at h <;>
          · simp at h
            rcases h with h | h
            · exact absurd h hnot
            · exact h

/-- The one call of the proposal primitive made by `sendTransactionProposal`
carries the processors it was given. -/
theorem sendTransactionProposal_calls (w : World) (request : QueryRequest)
    (procs : List ProposalProcessor) (txFilter : Option TxProposalResponseFilter)
    (notifier : Chan) (txnId : TransactionID) (call : ProposalCall)
    (h : Event.CreateAndSendTransactionProposal call ∈
      (sendTransactionProposal w request procs txFilter notifier txnId).trace) :
    call = queryCall request procs txnId := by
  unfold sendTransactionProposal at h
  simp only [] at h
  split at h
  · simpa using h
  · split at h
    · simpa using h
    · split at h <;> simpa using h

/-- A run of `sendTransactionProposal` that does not panic sends exactly one
envelope; it panics, sending none, exactly when the proposal primitive returns
no error and the filter returns an empty sequence with no error. -/
theorem sendTransactionProposal_sends (w : World) (request : QueryRequest)
    (procs : List ProposalProcessor) (txFilter : Option TxProposalResponseFilter)
    (notifier : Chan) (txnId : TransactionID) :
    ((sendTransactionProposal w request procs txFilter notifier txnId).panicked = false →
      (querySends
        (sendTransactionProposal w request procs txFilter notifier txnId).trace).length = 1) ∧
    ((sendTransactionProposal w request procs txFilter notifier txnId).panicked = true →
      querySends (sendTransactionProposal w request procs txFilter notifier txnId).trace = [] ∧
      (w.CreateAndSendTransactionProposal (queryCall request procs txnId)).err = none ∧
      (match txFilter with
        | none => ProcessTxProposalResponse
        | some f => f)
        (w.CreateAndSendTransactionProposal (queryCall request procs txnId)).responses =
        Except.ok []) := by
  unfold sendTransactionProposal
  simp only []
  cases herr : (w.CreateAndSendTransactionProposal (queryCall request procs txnId)).err with
  | some err => simp [querySends]
  | none =>
    cases hf : (match txFilter with
        | none => ProcessTxProposalResponse
        | some f => f)
        (w.CreateAndSendTransactionProposal (queryCall request procs txnId)).responses with
    | error e => simp [querySends]
    | ok rs =>
      cases rs with
      | nil => simp [querySends]
      | cons r rest => simp [querySends]

/-- The end of `QueryWithOpts` always starts the goroutine. -/
theorem queryDispatch_spawned (w : World) (request : QueryRequest) (opts : QueryOpts)
    (t : List Event) (procs : List ProposalProcessor) (txnId : TransactionID) :
    ∃ notifier : Chan,
      (queryDispatch w request opts t procs txnId).spawned =
        some (sendTransactionProposal w request procs opts.TxFilter notifier txnId).trace := by
  unfold queryDispatch
  simp only []
  split
  · exact ⟨_, rfl⟩
  · split
    · exact ⟨_, rfl⟩
    · split <;> exact ⟨_, rfl⟩

/-- In the asynchronous mode the end of `QueryWithOpts` returns a nil payload
and a nil error and adds nothing to the trace of the call. -/
theorem queryDispatch_async (w : World) (request : QueryRequest) (opts : QueryOpts)
    (t : List Event) (procs : List ProposalProcessor) (txnId : TransactionID)
    (h : opts.Notifier ≠ none) :
    (queryDispatch w request opts t procs txnId).returned = some ([], none) ∧
    (queryDispatch w request opts t procs txnId).trace = t := by
  unfold queryDispatch
  simp [h]

/-- The three ways a valid `QueryWithOpts` call goes: processor resolution
fails, transaction-id generation fails, or the call ends as `queryDispatch`. -/
theorem QueryWithOpts_cases (w : World) (request : QueryRequest) (opts : QueryOpts)
    (hvalid : ¬ (request.ChaincodeID = "" ∨ request.Fcn = "")) :
    (∃ err, (QueryWithOpts w request opts).returned = some ([], some err) ∧
      (QueryWithOpts w request opts).spawned = none ∧
      ((QueryWithOpts w request opts).trace = (queryProcessors w request opts).2 ∨
        (QueryWithOpts w request opts).trace =
          (queryProcessors w request opts).2 ++ [Event.NewTxnID])) ∨
    (∃ procs t txnId, queryProcessors w request opts = (Except.ok procs, t) ∧
      w.NewTxnID = Except.ok txnId ∧
      QueryWithOpts w request opts =
        queryDispatch w request opts (t ++ [Event.NewTxnID]) procs txnId) := by
  rcases hproc : queryProcessors w request opts with ⟨res, t⟩
  cases res with
  | error e =>
    left
    exact ⟨e, by simp [QueryWithOpts, hvalid, hproc]⟩
  | ok procs =>
    cases htx : w.NewTxnID with
    | error e =>
      left
      exact ⟨Error.withMessage e "GetPeers cc.client.NewTxnID failed",
        by simp [QueryWithOpts, hvalid, hproc, htx]⟩
    | ok txnId =>
      right
      exact ⟨procs, t, txnId, rfl, rfl, by simp [QueryWithOpts, hvalid, hproc, htx]⟩

/-- The processor resolution of `QueryWithOpts` succeeds with the caller's
processors when there are some, and otherwise with the discovered peers,
narrowed by the selection service if any, when discovery and selection succeed. -/
theorem queryProcessors_resolved (w : World) (request : QueryRequest) (opts : QueryOpts)
    (procs : List ProposalProcessor)
    (h : (opts.ProposalProcessors ≠ [] ∧ procs = opts.ProposalProcessors) ∨
      (opts.ProposalProcessors = [] ∧ ∃ peers, w.GetPeers = Except.ok peers ∧
        ((w.selection = none ∧ procs = PeersToTxnProcessors peers) ∨
          ∃ sel endorsers, w.selection = some sel ∧
            sel peers request.ChaincodeID = Except.ok endorsers ∧
            procs = PeersToTxnProcessors endorsers))) :
    ∃ t, queryProcessors w request opts = (Except.ok procs, t) := by
  rcases h with ⟨hne, hp⟩ | ⟨hnil, peers, hpeers, hsel⟩
  · have hl : opts.ProposalProcessors.length ≠ 0 := fun h0 => hne (List.length_eq_zero.mp h0)
    exact ⟨[], by simp [queryProcessors, hl, hp]⟩
  · rcases hsel with ⟨hs, hp⟩ | ⟨sel, endorsers, hs, he, hp⟩
    · exact ⟨[Event.GetPeers], by simp [queryProcessors, hnil, hpeers, hs, hp]⟩
    · exact ⟨[Event.GetPeers, Event.GetEndorsersForChaincode peers request.ChaincodeID],
        by simp [queryProcessors, hnil, hpeers, hs, he, hp]⟩

/-- The processor resolution of `ExecuteTxWithOpts` succeeds with the caller's
processors when there are some, and otherwise with the discovered peers,
narrowed by the selection service if any, when discovery and selection succeed. -/
theorem executeProcessors_resolved (w : World) (request : ExecuteTxRequest)
    (opts : ExecuteTxOpts) (procs : List ProposalProcessor)
    (h : (opts.ProposalProcessors ≠ [] ∧ procs = opts.ProposalProcessors) ∨
      (opts.ProposalProcessors = [] ∧ ∃ peers, w.GetPeers = Except.ok peers ∧
        ((w.selection = none ∧ procs = PeersToTxnProcessors peers) ∨
          ∃ sel endorsers, w.selection = some sel ∧
            sel peers request.ChaincodeID = Except.ok endorsers ∧
            procs = PeersToTxnProcessors endorsers))) :
    ∃ t, executeProcessors w request opts = (Except.ok procs, t) := by
  rcases h with ⟨hne, hp⟩ | ⟨hnil, peers, hpeers, hsel⟩
  · have hl : opts.ProposalProcessors.length ≠ 0 := fun h0 => hne (List.length_eq_zero.mp h0)
    exact ⟨[], by simp [executeProcessors, hl, hp]⟩
  · rcases hsel with ⟨hs, hp⟩ | ⟨sel, endorsers, hs, he, hp⟩
    · exact ⟨[Event.GetPeers], by simp [executeProcessors, hnil, hpeers, hs, hp]⟩
    · exact ⟨[Event.GetPeers, Event.GetEndorsersForChaincode peers request.ChaincodeID],
        by simp [executeProcessors, hnil, hpeers, hs, he, hp]⟩

/-- The first thing `sendTransactionProposal` does is to call the proposal
primitive with the processors it was given. -/
theorem sendTransactionProposal_head (w : World) (request : QueryRequest)
    (procs : List ProposalProcessor) (txFilter : Option TxProposalResponseFilter)
    (notifier : Chan) (txnId : TransactionID) :
    Event.CreateAndSendTransactionProposal (queryCall request procs txnId) ∈
      (sendTransactionProposal w request procs txFilter notifier txnId).trace := by
  unfold sendTransactionProposal
  simp only []
  split
  · simp
  · split
    · simp
    · split <;> simp

/-- The end of `ExecuteTxWithOpts` keeps the trace it is entered with. -/
theorem executeDispatch_trace (w : World) (opts : ExecuteTxOpts) (t : List Event)
    (txID : TransactionID) (rs : List TransactionProposalResponse) :
    ∀ e ∈ t, e ∈ (executeDispatch w opts t txID rs).trace := by
  intro e he
  unfold executeDispatch
  simp only []
  split
  · simp [he]
  · split <;> simp [he]

/-- A valid `QueryWithOpts` call whose processors are resolved and whose
transaction id is generated ends as `queryDispatch`. -/
theorem QueryWithOpts_dispatch (w : World) (request : QueryRequest) (opts : QueryOpts)
    (procs : List ProposalProcessor) (t : List Event) (txnId : TransactionID)
    (hvalid : ¬ (request.ChaincodeID = "" ∨ request.Fcn = ""))
    (hproc : queryProcessors w request opts = (Except.ok procs, t))
    (htx : w.NewTxnID = Except.ok txnId) :
    QueryWithOpts w request opts =
      queryDispatch w request opts (t ++ [Event.NewTxnID]) procs txnId := by
  simp [QueryWithOpts, hvalid, hproc, htx]

/-- A valid `ExecuteTxWithOpts` call whose processors are resolved goes on
with the proposal and filter steps. -/
theorem ExecuteTxWithOpts_propose (w : World) (request : ExecuteTxRequest)
    (opts : ExecuteTxOpts) (procs : List ProposalProcessor) (t : List Event)
    (hvalid : ¬ (request.ChaincodeID = "" ∨ request.Fcn = ""))
    (hproc : executeProcessors w request opts = (Except.ok procs, t)) :
    ExecuteTxWithOpts w request opts = executePropose w request opts t procs := by
  simp [ExecuteTxWithOpts, hvalid, hproc]

/-! ## Request validation -/

/-- C6: when the chaincode id or the function name of the request is empty,
`QueryWithOpts` and `ExecuteTxWithOpts` return the invalid-request error with
an empty result, whatever the options, and do nothing else: the trace of the
call is empty and no goroutine is started, so no collaborator is called and
nothing is sent on a notifier. -/
theorem invalid_request_rejected (w : World) :
    (∀ (request : QueryRequest) (opts : QueryOpts),
      request.ChaincodeID = "" ∨ request.Fcn = "" →
      (QueryWithOpts w request opts).returned =
          some ([], some (Error.new "ChaincodeID and Fcn are required")) ∧
        (QueryWithOpts w request opts).trace = [] ∧
        (QueryWithOpts w request opts).spawned = none ∧
        (QueryWithOpts w request opts).panicked = false) ∧
    (∀ (request : ExecuteTxRequest) (opts : ExecuteTxOpts),
      request.ChaincodeID = "" ∨ request.Fcn = "" →
      (ExecuteTxWithOpts w request opts).returned =
          some (TransactionID.zero,
            some (Error.new "chaincode name and function name are required")) ∧
        (ExecuteTxWithOpts w request opts).trace = [] ∧
        (ExecuteTxWithOpts w request opts).spawned = none ∧
        (ExecuteTxWithOpts w request opts).panicked = false) := by
  constructor
  · intro request opts h
    simp [QueryWithOpts, h]
  · intro request opts h
    simp [ExecuteTxWithOpts, h]

theorem invalid_request_rejected_witness :
    (QueryWithOpts sunnyWorld { ChaincodeID := "cc", Fcn := "", Args := [] }
        { Notifier := some 1, ProposalProcessors := ["p"], TxFilter := none, Timeout := 0 }).trace
      = [] :=
  ((invalid_request_rejected sunnyWorld).1 { ChaincodeID := "cc", Fcn := "", Args := [] }
    { Notifier := some 1, ProposalProcessors := ["p"], TxFilter := none, Timeout := 0 }
    (Or.inr rfl)).2.1

/-! ## The commit waiter -/

/-- C4 fails on the code: when the event hub is not connected and `Connect`
fails, `sendTransaction` sends the connection error and then goes on: it
registers for the commit event, submits the transaction and sends a second
envelope. -/
theorem sendTransaction_connect_failure :
    sendTransaction connectFailsWorld { ID := "tx1", Nonce := [1] } [⟨200, "OK", [42]⟩]
        Chan.made 1000 =
      [Event.IsConnected, Event.Connect,
       Event.sendExecute Chan.made
         { Response := TransactionID.zero, TxValidationCode := 0,
           Error := some (Error.new "connection refused") },
       Event.RegisterTxEvent { ID := "tx1", Nonce := [1] },
       Event.CreateAndSendTransaction [⟨200, "OK", [42]⟩],
       Event.selectCommit 1000,
       Event.sendExecute Chan.made
         { Response := { ID := "tx1", Nonce := [1] }, TxValidationCode := TxValidationCode_VALID,
           Error := none }] ∧
    (executeSends
      (sendTransaction connectFailsWorld { ID := "tx1", Nonce := [1] } [⟨200, "OK", [42]⟩]
        Chan.made 1000)).length = 2 := by
  decide

/-- Apart from a failed `Connect`, a run of `sendTransaction` sends one
envelope; after a failed `Connect` it sends two. -/
theorem sendTransaction_sends_length (w : World) (txID : TransactionID)
    (rs : List TransactionProposalResponse) (notifier : Chan) (timeout : Duration) :
    (executeSends (sendTransaction w txID rs notifier timeout)).length =
      if w.IsConnected = false ∧ w.Connect ≠ none then 2 else 1 := by
  unfold sendTransaction
  cases hc : w.IsConnected <;> cases hk : w.Connect <;>
    cases hs : w.CreateAndSendTransaction rs <;> cases he : w.commitEvent <;>
    simp [executeSends] <;> split <;> simp [executeSends]

/-- C7: when the event hub is connected, the submission succeeds and the commit
event with code `c` is received before the timer fires, `sendTransaction` sends
one envelope, with the transaction id `t`, the code `c`, and an error that is
nil exactly when `c` is `VALID`; a synchronous `ExecuteTxWithOpts` that started
the goroutine for `t` and reads the envelope returns `t` and that error. -/
theorem sendTransaction_commit (w : World) (t : TransactionID) (c : TxValidationCode)
    (hconn : w.IsConnected = true)
    (hsubmit : ∀ rs, w.CreateAndSendTransaction rs = none)
    (hevent : w.commitEvent = some c) :
    (∀ (rs : List TransactionProposalResponse) (notifier : Chan) (timeout : Duration),
      ∃ err : Option Error,
        executeSends (sendTransaction w t rs notifier timeout) =
          [{ Response := t, TxValidationCode := c, Error := err }] ∧
        (err = none ↔ c = TxValidationCode_VALID) ∧
        (c ≠ TxValidationCode_VALID →
          err = some (Error.new "ExecuteTx transaction response failed"))) ∧
    (∀ (request : ExecuteTxRequest) (opts : ExecuteTxOpts),
      opts.Notifier = none → w.callerTimerFirst = false →
      (∀ call, (w.CreateAndSendTransactionProposal call).txID = t) →
      (ExecuteTxWithOpts w request opts).spawned ≠ none →
      (ExecuteTxWithOpts w request opts).returned =
        some (t, if c = TxValidationCode_VALID then none
                 else some (Error.new "ExecuteTx transaction response failed"))) := by
  have hsend : ∀ (rs : List TransactionProposalResponse) (notifier : Chan)
      (timeout : Duration),
      executeSends (sendTransaction w t rs notifier timeout) =
        [{ Response := t, TxValidationCode := c,
           Error := if c = TxValidationCode_VALID then none
                    else some (Error.new "ExecuteTx transaction response failed") }] := by
    intro rs notifier timeout
    unfold sendTransaction
    by_cases hc : c = TxValidationCode_VALID <;>
      simp [hconn, hsubmit rs, hevent, hc, executeSends]
  constructor
  · intro rs notifier timeout
    refine ⟨_, hsend rs notifier timeout, ?_, ?_⟩
    · by_cases hc : c = TxValidationCode_VALID <;> simp [hc]
    · intro hc
      simp [hc]
  · intro request opts hnot hfirst htx hspawn
    obtain ⟨t1, txID, rs, call, hcall, heq⟩ := ExecuteTxWithOpts_spawned w request opts hspawn
    rw [heq.2.2]
    have htxid : txID = t := by rw [heq.2.1, htx]
    subst htxid
    simp [executeDispatch, hnot, hfirst, hsend]

theorem sendTransaction_commit_witness :
    (ExecuteTxWithOpts sunnyWorld
        { ChaincodeID := "cc", Fcn := "put", Args := [], TransientMap := [],
          TxnId := { ID := "tx1", Nonce := [1] }, SuperMiner := "", NormalMiner := "",
          PoolMiner := "", Peers := [] }
        { Notifier := none, ProposalProcessors := [], TxFilter := none, Timeout := 0 }).returned =
      some ({ ID := "tx1", Nonce := [1] }, none) :=
  (sendTransaction_commit sunnyWorld { ID := "tx1", Nonce := [1] } TxValidationCode_VALID
    rfl (fun _ => rfl) rfl).2
    { ChaincodeID := "cc", Fcn := "put", Args := [], TransientMap := [],
      TxnId := { ID := "tx1", Nonce := [1] }, SuperMiner := "", NormalMiner := "",
      PoolMiner := "", Peers := [] }
    { Notifier := none, ProposalProcessors := [], TxFilter := none, Timeout := 0 }
    rfl rfl (fun _ => rfl) (by decide)

/-! ## The query dispatcher -/

/-- C8 fails on the code: when the filtered sequence is empty, reading its
index 0 panics and `sendTransactionProposal` sends nothing.  That happens with
the default filter when the proposal primitive returns an empty sequence and no
error, and with a caller-supplied filter that returns an empty sequence and no
error. -/
theorem sendTransactionProposal_empty_panics :
    sendTransactionProposal emptyResponsesWorld { ChaincodeID := "cc", Fcn := "get", Args := [] }
        ["peer0"] none Chan.made { ID := "tx0", Nonce := [0] } =
      { trace := [Event.CreateAndSendTransactionProposal
          (queryCall { ChaincodeID := "cc", Fcn := "get", Args := [] } ["peer0"]
            { ID := "tx0", Nonce := [0] })],
        panicked := true } ∧
    querySends
      (sendTransactionProposal emptyResponsesWorld
        { ChaincodeID := "cc", Fcn := "get", Args := [] }
        ["peer0"] none Chan.made { ID := "tx0", Nonce := [0] }).trace = [] ∧
    sendTransactionProposal sunnyWorld { ChaincodeID := "cc", Fcn := "get", Args := [] }
        ["peer0"] (some (fun _ => Except.ok [])) Chan.made { ID := "tx0", Nonce := [0] } =
      { trace := [Event.CreateAndSendTransactionProposal
          (queryCall { ChaincodeID := "cc", Fcn := "get", Args := [] } ["peer0"]
            { ID := "tx0", Nonce := [0] })],
        panicked := true } := by
  decide

/-! ## The processors passed to the proposal primitive -/

/-- C9, as stated, fails: with no processors supplied and an empty list of
discovered peers, both operations call the proposal primitive with an empty
processor set, and neither fails for that reason. -/
theorem empty_processors_counterexample :
    (QueryWithOpts noPeersWorld { ChaincodeID := "cc", Fcn := "get", Args := [] }
        { Notifier := some 1, ProposalProcessors := [], TxFilter := none, Timeout := 0 }).spawned =
      some [Event.CreateAndSendTransactionProposal
              (queryCall { ChaincodeID := "cc", Fcn := "get", Args := [] } []
                { ID := "tx0", Nonce := [0] }),
            Event.sendQuery (Chan.supplied 1) { Response := [42], Error := none }] ∧
    (queryCall { ChaincodeID := "cc", Fcn := "get", Args := [] } []
      { ID := "tx0", Nonce := [0] }).targets = [] ∧
    (ExecuteTxWithOpts noPeersWorld
        { ChaincodeID := "cc", Fcn := "put", Args := [], TransientMap := [],
          TxnId := { ID := "tx1", Nonce := [1] }, SuperMiner := "", NormalMiner := "",
          PoolMiner := "", Peers := [] }
        { Notifier := some 1, ProposalProcessors := [], TxFilter := none, Timeout := 0 }).trace =
      [Event.GetPeers,
       Event.CreateAndSendTransactionProposal
         (executeCall
           { ChaincodeID := "cc", Fcn := "put", Args := [], TransientMap := [],
             TxnId := { ID := "tx1", Nonce := [1] }, SuperMiner := "", NormalMiner := "",
             PoolMiner := "", Peers := [] } []),
       Event.TimeoutOrDefault TimeoutType.ExecuteTx] ∧
    (ExecuteTxWithOpts noPeersWorld
        { ChaincodeID := "cc", Fcn := "put", Args := [], TransientMap := [],
          TxnId := { ID := "tx1", Nonce := [1] }, SuperMiner := "", NormalMiner := "",
          PoolMiner := "", Peers := [] }
        { Notifier := some 1, ProposalProcessors := [], TxFilter := none, Timeout := 0 }).returned =
      some ({ ID := "tx1", Nonce := [1] }, none) := by
  decide

/-- C9, amended: the processor set that `QueryWithOpts` and `ExecuteTxWithOpts`
pass to the proposal primitive is the caller's when the caller supplies a
non-empty one (it is then non-empty); otherwise it is the list of discovered
peers, narrowed by the selection service when the client has one, converted to
processors, whatever its length.  No emptiness check is made: once the
processors are resolved (and, for a query, the transaction id generated), the
proposal primitive is called with them, also when there are none. -/
theorem processors_passed (w : World) :
    (∀ (request : QueryRequest) (opts : QueryOpts) (procs : List ProposalProcessor)
        (txnId : TransactionID),
      ¬ (request.ChaincodeID = "" ∨ request.Fcn = "") →
      ((opts.ProposalProcessors ≠ [] ∧ procs = opts.ProposalProcessors) ∨
      (opts.ProposalProcessors = [] ∧ ∃ peers, w.GetPeers = Except.ok peers ∧
        ((w.selection = none ∧ procs = PeersToTxnProcessors peers) ∨
          ∃ sel endorsers, w.selection = some sel ∧
            sel peers request.ChaincodeID = Except.ok endorsers ∧
            procs = PeersToTxnProcessors endorsers))) →
      w.NewTxnID = Except.ok txnId →
      ∃ tr, (QueryWithOpts w request opts).spawned = some tr ∧
        Event.CreateAndSendTransactionProposal (queryCall request procs txnId) ∈ tr ∧
        (queryCall request procs txnId).targets = procs ∧
        ∀ call, Event.CreateAndSendTransactionProposal call ∈ tr → call.targets = procs) ∧
    (∀ (request : ExecuteTxRequest) (opts : ExecuteTxOpts) (procs : List ProposalProcessor),
      ¬ (request.ChaincodeID = "" ∨ request.Fcn = "") →
      ((opts.ProposalProcessors ≠ [] ∧ procs = opts.ProposalProcessors) ∨
      (opts.ProposalProcessors = [] ∧ ∃ peers, w.GetPeers = Except.ok peers ∧
        ((w.selection = none ∧ procs = PeersToTxnProcessors peers) ∨
          ∃ sel endorsers, w.selection = some sel ∧
            sel peers request.ChaincodeID = Except.ok endorsers ∧
            procs = PeersToTxnProcessors endorsers))) →
      Event.CreateAndSendTransactionProposal (executeCall request procs) ∈
          (ExecuteTxWithOpts w request opts).trace ∧
        (executeCall request procs).targets = procs ∧
        ∀ call, Event.CreateAndSendTransactionProposal call ∈
          (ExecuteTxWithOpts w request opts).trace → call.targets = procs) ∧
    (∀ (request : QueryRequest) (opts : QueryOpts) (tr : List Event) (call : ProposalCall),
      (QueryWithOpts w request opts).spawned = some tr →
      Event.CreateAndSendTransactionProposal call ∈ tr →
      (opts.ProposalProcessors ≠ [] ∧ call.targets = opts.ProposalProcessors ∧
        call.targets ≠ []) ∨
      (opts.ProposalProcessors = [] ∧ ∃ peers, w.GetPeers = Except.ok peers ∧
        ((w.selection = none ∧ call.targets = PeersToTxnProcessors peers) ∨
          ∃ sel endorsers, w.selection = some sel ∧
            sel peers request.ChaincodeID = Except.ok endorsers ∧
            call.targets = PeersToTxnProcessors endorsers))) ∧
    (∀ (request : ExecuteTxRequest) (opts : ExecuteTxOpts) (call : ProposalCall),
      Event.CreateAndSendTransactionProposal call ∈ (ExecuteTxWithOpts w request opts).trace →
      (opts.ProposalProcessors ≠ [] ∧ call.targets = opts.ProposalProcessors ∧
        call.targets ≠ []) ∨
      (opts.ProposalProcessors = [] ∧ ∃ peers, w.GetPeers = Except.ok peers ∧
        ((w.selection = none ∧ call.targets = PeersToTxnProcessors peers) ∨
          ∃ sel endorsers, w.selection = some sel ∧
            sel peers request.ChaincodeID = Except.ok endorsers ∧
            call.targets = PeersToTxnProcessors endorsers))) := by
  refine ⟨?_, ?_, ?_, ?_⟩
  · intro request opts procs txnId hvalid hres htx
    obtain ⟨t, hproc⟩ := queryProcessors_resolved w request opts procs hres
    obtain ⟨notifier, hrun⟩ :=
      queryDispatch_spawned w request opts (t ++ [Event.NewTxnID]) procs txnId
    rw [QueryWithOpts_dispatch w request opts procs t txnId hvalid hproc htx]
    refine ⟨_, hrun, sendTransactionProposal_head w request procs opts.TxFilter notifier txnId,
      rfl, ?_⟩
    intro call hmem
    rw [sendTransactionProposal_calls w request procs opts.TxFilter notifier txnId call hmem]
    rfl
  · intro request opts procs hvalid hres
    obtain ⟨t, hproc⟩ := executeProcessors_resolved w request opts procs hres
    refine ⟨?_, rfl, ?_⟩
    · rw [ExecuteTxWithOpts_propose w request opts procs t hvalid hproc]
      by_cases hsp : (executePropose w request opts t procs).spawned = none
      · rw [(executePropose_failed w request opts t procs hsp).2]
        simp
      · obtain ⟨rs, _, hdisp⟩ := executePropose_spawned w request opts t procs hsp
        rw [hdisp]
        exact executeDispatch_trace w opts _ _ rs _ (by simp)
    · intro call hmem
      obtain ⟨procs2, t2, hproc2, hcall⟩ := ExecuteTxWithOpts_calls w request opts call hmem
      rw [hproc] at hproc2
      cases hproc2
      rw [hcall]
      rfl
  · intro request opts tr call hsp hmem
    by_cases hvalid : request.ChaincodeID = "" ∨ request.Fcn = ""
    · simp [QueryWithOpts, hvalid] at hsp
    · rcases QueryWithOpts_cases w request opts hvalid with ⟨err, _, hnone, _⟩ |
        ⟨procs, t, txnId, hproc, _, heq⟩
      · rw [hnone] at hsp
        cases hsp
      · rw [heq] at hsp
        obtain ⟨notifier, hrun⟩ :=
          queryDispatch_spawned w request opts (t ++ [Event.NewTxnID]) procs txnId
        rw [hrun] at hsp
        cases hsp
        have hcall := sendTransactionProposal_calls w request procs opts.TxFilter notifier
          txnId call hmem
        have htargets : call.targets = procs := by rw [hcall]; rfl
        rcases queryProcessors_ok w request opts procs t hproc with ⟨hne, hp⟩ | ⟨hnil, hp⟩
        · exact Or.inl ⟨hne, htargets.trans hp, by rw [htargets, hp]; exact hne⟩
        · rw [← htargets] at hp
          exact Or.inr ⟨hnil, hp⟩
  · intro request opts call hmem
    obtain ⟨procs, t, hproc, hcall⟩ := ExecuteTxWithOpts_calls w request opts call hmem
    have htargets : call.targets = procs := by rw [hcall]; rfl
    rcases executeProcessors_ok w request opts procs t hproc with ⟨hne, hp⟩ | ⟨hnil, hp⟩
    · exact Or.inl ⟨hne, htargets.trans hp, by rw [htargets, hp]; exact hne⟩
    · rw [← htargets] at hp
      exact Or.inr ⟨hnil, hp⟩

theorem processors_passed_witness :
    ∃ tr, (QueryWithOpts noPeersWorld { ChaincodeID := "cc", Fcn := "get", Args := [] }
        { Notifier := none, ProposalProcessors := [], TxFilter := none, Timeout := 0 }).spawned =
        some tr ∧
      Event.CreateAndSendTransactionProposal
        (queryCall { ChaincodeID := "cc", Fcn := "get", Args := [] } []
          { ID := "tx0", Nonce := [0] }) ∈ tr ∧
      (queryCall { ChaincodeID := "cc", Fcn := "get", Args := [] } []
        { ID := "tx0", Nonce := [0] }).targets = [] ∧
      ∀ call, Event.CreateAndSendTransactionProposal call ∈ tr → call.targets = [] :=
  (processors_passed noPeersWorld).1 { ChaincodeID := "cc", Fcn := "get", Args := [] }
    { Notifier := none, ProposalProcessors := [], TxFilter := none, Timeout := 0 }
    [] { ID := "tx0", Nonce := [0] } (by decide)
    (Or.inr ⟨rfl, [], rfl, Or.inl ⟨rfl, rfl⟩⟩) rfl

/-! ## The asynchronous mode -/

/-- C5, as stated, fails: with a notifier supplied and a valid request,
`ExecuteTxWithOpts` returns the transaction id of the proposal, not the zero
id, and `QueryWithOpts` returns the discovery error when discovery fails. -/
theorem async_return_counterexample :
    (ExecuteTxWithOpts sunnyWorld
        { ChaincodeID := "cc", Fcn := "put", Args := [], TransientMap := [],
          TxnId := { ID := "tx1", Nonce := [1] }, SuperMiner := "", NormalMiner := "",
          PoolMiner := "", Peers := [] }
        { Notifier := some 1, ProposalProcessors := ["p0"], TxFilter := none,
          Timeout := 0 }).returned =
      some ({ ID := "tx1", Nonce := [1] }, none) ∧
    ({ ID := "tx1", Nonce := [1] } : TransactionID) ≠ TransactionID.zero ∧
    (QueryWithOpts discoveryFailsWorld { ChaincodeID := "cc", Fcn := "get", Args := [] }
        { Notifier := some 1, ProposalProcessors := [], TxFilter := none, Timeout := 0 }).returned =
      some ([], some (Error.withMessage (Error.new "discovery unavailable") "GetPeers failed")) := by
  decide

/-- With a notifier supplied and a valid request, neither operation has a
`select` on the notifier in its trace; it returns a nil error when it starts
the goroutine and an error when it does not. -/
theorem async_trace (w : World) :
    (∀ (request : QueryRequest) (opts : QueryOpts),
      ¬ (request.ChaincodeID = "" ∨ request.Fcn = "") → opts.Notifier ≠ none →
      (∀ e ∈ (QueryWithOpts w request opts).trace, e.isSelectNotifier = false) ∧
      ((QueryWithOpts w request opts).spawned ≠ none →
        (QueryWithOpts w request opts).returned = some ([], none)) ∧
      ((QueryWithOpts w request opts).spawned = none →
        ∃ err, (QueryWithOpts w request opts).returned = some ([], some err))) ∧
    (∀ (request : ExecuteTxRequest) (opts : ExecuteTxOpts),
      ¬ (request.ChaincodeID = "" ∨ request.Fcn = "") → opts.Notifier ≠ none →
      (∀ e ∈ (ExecuteTxWithOpts w request opts).trace, e.isSelectNotifier = false) ∧
      ((ExecuteTxWithOpts w request opts).spawned ≠ none →
        ∃ call, Event.CreateAndSendTransactionProposal call ∈
            (ExecuteTxWithOpts w request opts).trace ∧
          (w.CreateAndSendTransactionProposal call).err = none ∧
          (ExecuteTxWithOpts w request opts).returned =
            some ((w.CreateAndSendTransactionProposal call).txID, none)) ∧
      ((ExecuteTxWithOpts w request opts).spawned = none →
        ∃ v err, (ExecuteTxWithOpts w request opts).returned = some (v, some err))) := by
  constructor
  · intro request opts hvalid hnot
    have hptr := queryProcessors_trace w request opts
    have hpsel : ∀ e ∈ (queryProcessors w request opts).2, e.isSelectNotifier = false := by
      intro e he
      rcases hptr e he with h | ⟨_, _, h⟩ <;> subst h <;> rfl
    rcases QueryWithOpts_cases w request opts hvalid with ⟨err, hret, hnone, htr⟩ |
      ⟨procs, t, txnId, hproc, _, heq⟩
    · refine ⟨?_, fun h => absurd hnone h, fun _ => ⟨err, hret⟩⟩
      intro e he
      rcases htr with htr | htr
      · rw [htr] at he
        exact hpsel e he
      · rw [htr] at he
        rcases List.mem_append.mp he with h | h
        · exact hpsel e h
        · simp at h
          subst h
          rfl
    · have hasync := queryDispatch_async w request opts (t ++ [Event.NewTxnID]) procs txnId hnot
      obtain ⟨notifier, hrun⟩ :=
        queryDispatch_spawned w request opts (t ++ [Event.NewTxnID]) procs txnId
      rw [heq]
      refine ⟨?_, fun _ => hasync.1, fun h => ?_⟩
      · rw [hasync.2]
        intro e he
        rcases List.mem_append.mp he with h | h
        · have := hpsel e (by rw [hproc]; exact h)
          exact this
        · simp at h
          subst h
          rfl
      · rw [hrun] at h
        cases h
  · intro request opts hvalid hnot
    have hptr := executeProcessors_trace w request opts
    have hpsel : ∀ e ∈ (executeProcessors w request opts).2, e.isSelectNotifier = false := by
      intro e he
      rcases hptr e he with h | ⟨_, _, h⟩ <;> subst h <;> rfl
    rcases hproc : executeProcessors w request opts with ⟨res, tr⟩
    rw [hproc] at hpsel
    cases res with
    | error e =>
      have heq : ExecuteTxWithOpts w request opts =
          { returned := some (TransactionID.zero, some e), trace := tr, spawned := none,
            panicked := false } := by
        simp [ExecuteTxWithOpts, hvalid, hproc]
      rw [heq]
      exact ⟨hpsel, fun h => absurd rfl h, fun _ => ⟨_, _, rfl⟩⟩
    | ok procs =>
      have heq : ExecuteTxWithOpts w request opts = executePropose w request opts tr procs := by
        simp [ExecuteTxWithOpts, hvalid, hproc]
      rw [heq]
      by_cases hsp : (executePropose w request opts tr procs).spawned = none
      · have hf := executePropose_failed w request opts tr procs hsp
        refine ⟨?_, fun h => absurd hsp h, fun _ => hf.1⟩
        rw [hf.2]
        intro e he
        rcases List.mem_append.mp he with h | h
        · exact hpsel e h
        · simp at h
          subst h
          rfl
      · obtain ⟨rs, herr, hdisp⟩ := executePropose_spawned w request opts tr procs hsp
        have hasync := executeDispatch_async w opts
          (tr ++ [Event.CreateAndSendTransactionProposal (executeCall request procs)])
          (w.CreateAndSendTransactionProposal (executeCall request procs)).txID rs hnot
        rw [hdisp]
        refine ⟨?_, fun _ => ⟨executeCall request procs, ?_, herr, hasync.1⟩,
          fun h => ?_⟩
        · rw [hasync.2]
          intro e he
          rcases List.mem_append.mp he with h | h
          · rcases List.mem_append.mp h with h | h
            · exact hpsel e h
            · simp at h
              subst h
              rfl
          · simp at h
            subst h
            rfl
        · rw [hasync.2]
          simp
        · rw [hdisp] at hsp
          exact absurd h hsp

/-- C5, amended: with a notifier supplied and a valid request, neither
operation reads from the notifier or waits on a timer.  When every preparatory
step succeeds (processor resolution and transaction-id generation for
`QueryWithOpts`; processor resolution, proposal transmission and response
filter for `ExecuteTxWithOpts`), the goroutine is started on the caller's
notifier, `QueryWithOpts` returns a nil payload and a nil error, and
`ExecuteTxWithOpts` returns the transaction id that the proposal primitive
returned, with a nil error.  When a preparatory step fails, the call returns
the error of that step, wrapped with the message of the step, and starts no
goroutine; the result is then empty, except that a filter failure in
`ExecuteTxWithOpts` returns the transaction id of the proposal. -/
theorem async_return (w : World) :
    (∀ (request : QueryRequest) (opts : QueryOpts),
      ¬ (request.ChaincodeID = "" ∨ request.Fcn = "") → opts.Notifier ≠ none →
      (∀ e ∈ (QueryWithOpts w request opts).trace, e.isSelectNotifier = false) ∧
      (∀ err, opts.ProposalProcessors = [] → w.GetPeers = Except.error err →
        (QueryWithOpts w request opts).returned =
          some ([], some (Error.withMessage err "GetPeers failed")) ∧
        (QueryWithOpts w request opts).spawned = none) ∧
      (∀ peers sel err, opts.ProposalProcessors = [] → w.GetPeers = Except.ok peers →
        w.selection = some sel → sel peers request.ChaincodeID = Except.error err →
        (QueryWithOpts w request opts).returned =
          some ([], some (Error.withMessage err "Failed to get endorsing peers")) ∧
        (QueryWithOpts w request opts).spawned = none) ∧
      (∀ (procs : List ProposalProcessor) (err : Error),
        ((opts.ProposalProcessors ≠ [] ∧ procs = opts.ProposalProcessors) ∨
        (opts.ProposalProcessors = [] ∧ ∃ peers, w.GetPeers = Except.ok peers ∧
          ((w.selection = none ∧ procs = PeersToTxnProcessors peers) ∨
            ∃ sel endorsers, w.selection = some sel ∧
              sel peers request.ChaincodeID = Except.ok endorsers ∧
              procs = PeersToTxnProcessors endorsers))) →
        w.NewTxnID = Except.error err →
        (QueryWithOpts w request opts).returned =
          some ([], some (Error.withMessage err "GetPeers cc.client.NewTxnID failed")) ∧
        (QueryWithOpts w request opts).spawned = none) ∧
      (∀ (procs : List ProposalProcessor) (txnId : TransactionID) (notifier : Nat),
        ((opts.ProposalProcessors ≠ [] ∧ procs = opts.ProposalProcessors) ∨
        (opts.ProposalProcessors = [] ∧ ∃ peers, w.GetPeers = Except.ok peers ∧
          ((w.selection = none ∧ procs = PeersToTxnProcessors peers) ∨
            ∃ sel endorsers, w.selection = some sel ∧
              sel peers request.ChaincodeID = Except.ok endorsers ∧
              procs = PeersToTxnProcessors endorsers))) →
        w.NewTxnID = Except.ok txnId → opts.Notifier = some notifier →
        (QueryWithOpts w request opts).returned = some ([], none) ∧
        (QueryWithOpts w request opts).spawned =
          some (sendTransactionProposal w request procs opts.TxFilter
            (Chan.supplied notifier) txnId).trace)) ∧
    (∀ (request : ExecuteTxRequest) (opts : ExecuteTxOpts),
      ¬ (request.ChaincodeID = "" ∨ request.Fcn = "") → opts.Notifier ≠ none →
      (∀ e ∈ (ExecuteTxWithOpts w request opts).trace, e.isSelectNotifier = false) ∧
      (∀ err, opts.ProposalProcessors = [] → w.GetPeers = Except.error err →
        (ExecuteTxWithOpts w request opts).returned =
          some (TransactionID.zero, some (Error.withMessage err "GetPeers failed")) ∧
        (ExecuteTxWithOpts w request opts).spawned = none) ∧
      (∀ peers sel err, opts.ProposalProcessors = [] → w.GetPeers = Except.ok peers →
        w.selection = some sel → sel peers request.ChaincodeID = Except.error err →
        (ExecuteTxWithOpts w request opts).returned =
          some (TransactionID.zero,
            some (Error.withMessage err "Failed to get endorsing peers for ExecuteTx")) ∧
        (ExecuteTxWithOpts w request opts).spawned = none) ∧
      (∀ (procs : List ProposalProcessor) (err : Error),
        ((opts.ProposalProcessors ≠ [] ∧ procs = opts.ProposalProcessors) ∨
        (opts.ProposalProcessors = [] ∧ ∃ peers, w.GetPeers = Except.ok peers ∧
          ((w.selection = none ∧ procs = PeersToTxnProcessors peers) ∨
            ∃ sel endorsers, w.selection = some sel ∧
              sel peers request.ChaincodeID = Except.ok endorsers ∧
              procs = PeersToTxnProcessors endorsers))) →
        (w.CreateAndSendTransactionProposal (executeCall request procs)).err = some err →
        (ExecuteTxWithOpts w request opts).returned =
          some (TransactionID.zero,
            some (Error.withMessage err "CreateAndSendTransactionProposal failed")) ∧
        (ExecuteTxWithOpts w request opts).spawned = none) ∧
      (∀ (procs : List ProposalProcessor) (err : Error),
        ((opts.ProposalProcessors ≠ [] ∧ procs = opts.ProposalProcessors) ∨
        (opts.ProposalProcessors = [] ∧ ∃ peers, w.GetPeers = Except.ok peers ∧
          ((w.selection = none ∧ procs = PeersToTxnProcessors peers) ∨
            ∃ sel endorsers, w.selection = some sel ∧
              sel peers request.ChaincodeID = Except.ok endorsers ∧
              procs = PeersToTxnProcessors endorsers))) →
        (w.CreateAndSendTransactionProposal (executeCall request procs)).err = none →
        (match opts.TxFilter with
          | none => ProcessTxProposalResponse
          | some f => f)
          (w.CreateAndSendTransactionProposal (executeCall request procs)).responses =
          Except.error err →
        (ExecuteTxWithOpts w request opts).returned =
          some ((w.CreateAndSendTransactionProposal (executeCall request procs)).txID,
            some (Error.withMessage err "TxFilter failed")) ∧
        (ExecuteTxWithOpts w request opts).spawned = none) ∧
      (∀ (procs : List ProposalProcessor) (rs : List TransactionProposalResponse)
          (notifier : Nat),
        ((opts.ProposalProcessors ≠ [] ∧ procs = opts.ProposalProcessors) ∨
        (opts.ProposalProcessors = [] ∧ ∃ peers, w.GetPeers = Except.ok peers ∧
          ((w.selection = none ∧ procs = PeersToTxnProcessors peers) ∨
            ∃ sel endorsers, w.selection = some sel ∧
              sel peers request.ChaincodeID = Except.ok endorsers ∧
              procs = PeersToTxnProcessors endorsers))) →
        (w.CreateAndSendTransactionProposal (executeCall request procs)).err = none →
        (match opts.TxFilter with
          | none => ProcessTxProposalResponse
          | some f => f)
          (w.CreateAndSendTransactionProposal (executeCall request procs)).responses =
          Except.ok rs →
        opts.Notifier = some notifier →
        (ExecuteTxWithOpts w request opts).returned =
          some ((w.CreateAndSendTransactionProposal (executeCall request procs)).txID, none) ∧
        (ExecuteTxWithOpts w request opts).spawned =
          some (sendTransaction w
            (w.CreateAndSendTransactionProposal (executeCall request procs)).txID rs
            (Chan.supplied notifier)
            (if opts.Timeout ≠ 0 then opts.Timeout
             else w.TimeoutOrDefault TimeoutType.ExecuteTx)))) := by
  constructor
  · intro request opts hvalid hnot
    refine ⟨((async_trace w).1 request opts hvalid hnot).1, ?_, ?_, ?_, ?_⟩
    · intro err hnil hpeers
      simp [QueryWithOpts, hvalid, queryProcessors, hnil, hpeers]
    · intro peers sel err hnil hpeers hs he
      simp [QueryWithOpts, hvalid, queryProcessors, hnil, hpeers, hs, he]
    · intro procs err hres htx
      obtain ⟨t, hproc⟩ := queryProcessors_resolved w request opts procs hres
      simp [QueryWithOpts, hvalid, hproc, htx]
    · intro procs txnId notifier hres htx hn
      obtain ⟨t, hproc⟩ := queryProcessors_resolved w request opts procs hres
      rw [QueryWithOpts_dispatch w request opts procs t txnId hvalid hproc htx]
      simp [queryDispatch, hn]
  · intro request opts hvalid hnot
    refine ⟨((async_trace w).2 request opts hvalid hnot).1, ?_, ?_, ?_, ?_, ?_⟩
    · intro err hnil hpeers
      simp [ExecuteTxWithOpts, hvalid, executeProcessors, hnil, hpeers]
    · intro peers sel err hnil hpeers hs he
      simp [ExecuteTxWithOpts, hvalid, executeProcessors, hnil, hpeers, hs, he]
    · intro procs err hres herr
      obtain ⟨t, hproc⟩ := executeProcessors_resolved w request opts procs hres
      rw [ExecuteTxWithOpts_propose w request opts procs t hvalid hproc]
      simp [executePropose, herr]
    · intro procs err hres herr hf
      obtain ⟨t, hproc⟩ := executeProcessors_resolved w request opts procs hres
      rw [ExecuteTxWithOpts_propose w request opts procs t hvalid hproc]
      simp [executePropose, herr, hf]
    · intro procs rs notifier hres herr hf hn
      obtain ⟨t, hproc⟩ := executeProcessors_resolved w request opts procs hres
      rw [ExecuteTxWithOpts_propose w request opts procs t hvalid hproc]
      simp [executePropose, herr, hf, executeDispatch, hn]

theorem async_return_witness :
    (QueryWithOpts sunnyWorld { ChaincodeID := "cc", Fcn := "get", Args := [] }
        { Notifier := some 1, ProposalProcessors := [], TxFilter := none,
          Timeout := 0 }).returned = some ([], none) ∧
    (QueryWithOpts sunnyWorld { ChaincodeID := "cc", Fcn := "get", Args := [] }
        { Notifier := some 1, ProposalProcessors := [], TxFilter := none,
          Timeout := 0 }).spawned =
      some (sendTransactionProposal sunnyWorld { ChaincodeID := "cc", Fcn := "get", Args := [] }
        (PeersToTxnProcessors ["peer0", "peer1"]) none (Chan.supplied 1)
        { ID := "tx0", Nonce := [0] }).trace :=
  ((async_return sunnyWorld).1 { ChaincodeID := "cc", Fcn := "get", Args := [] }
    { Notifier := some 1, ProposalProcessors := [], TxFilter := none, Timeout := 0 }
    (by decide) (by decide)).2.2.2.2
    (PeersToTxnProcessors ["peer0", "peer1"]) { ID := "tx0", Nonce := [0] } 1
    (Or.inr ⟨rfl, ["peer0", "peer1"], rfl, Or.inl ⟨rfl, rfl⟩⟩) rfl rfl

end Chclient
